import Mathlib

/-!
# loggingroundtripper

A shallow embedding of `loggingroundtripper.go` (package `loggingroundtripper`):
the method `(*LoggingRoundTripper).RoundTrip` and the package-level counter
`requestIDCounter`.

The Go method is effectful.  The embedding passes the state explicitly:

* `World.requestIDCounter` is the package variable (a `uint64`, so every
  update is taken modulo `2^64`);
* `World.heap` holds the `http.Response` objects and the `io.ReadCloser`
  objects that pointers refer to; a pointer is an address (`Addr`) and a nil
  pointer or nil interface is `none`;
* `World.trace` records, in order, every effect the method itself performs: the
  atomic add, each `log.Printf`, the call into the inner transport and its
  completion, and each `ReadAll` and `Close` on a body stream;
* `World.clock` is the sequence of readings that the successive `time.Now()`
  calls of the method will observe;
* `World.outside` is the state of everything outside the package that an inner
  transport may read or change.

Code that is not part of the package (the inner transport, `http.DefaultTransport`,
`http2curl.GetCurlCommand`, the `fmt` renderings of a header map, of a duration
and of the body bytes) is a parameter, collected in `Env` and
`LoggingRoundTripper`.  An inner transport may itself be, or call, a
`*LoggingRoundTripper`: such a nested call runs the atomic add on the same
package counter, and the transport's result says how many nested calls there
were (`TransportResult.nested`).
-/

namespace Loggingroundtripper

/-- An address in the heap: the value of a non-nil pointer. -/
abbrev Addr := Nat

/-- A Go `[]byte`. -/
abbrev Bytes := List UInt8

/-- A Go `error` value; `Error` is the text that `%v` prints. -/
structure GoError where
  Error : String
  deriving DecidableEq, Repr

namespace io

/-- What a single `Read` reports besides the bytes: the sentinel `io.EOF` or
another error. -/
inductive ReadError where
  | EOF
  | failure (e : GoError)
  deriving DecidableEq, Repr

/-- An `io.ReadCloser` object.  `chunks` are the byte blocks that successive
`Read` calls still have to deliver, `failure` is what `Read` reports once the
blocks are used up (`none` stands for `io.EOF`), `closed` counts the calls of
`Close` so far. -/
structure ReadCloser where
  chunks : List Bytes
  failure : Option GoError
  closed : Nat
  deriving DecidableEq, Repr

/-- One call of `Read`: the next block with a nil error, or no bytes together
with `io.EOF` or the stream's error. -/
def ReadCloser.Read (s : ReadCloser) : Bytes × Option ReadError × ReadCloser :=
  match s.chunks with
  | c :: rest => (c, none, { s with chunks := rest })
  | [] =>
    match s.failure with
    | none => ([], some ReadError.EOF, s)
    | some e => ([], some (ReadError.failure e), s)

/-- One call of `Close`. -/
def ReadCloser.Close (s : ReadCloser) : ReadCloser :=
  { s with closed := s.closed + 1 }

end io

namespace ioutil

/-- The loop of `ioutil.ReadAll`: call `Read` and append until it reports an
error; `io.EOF` is turned into a nil error.  The first argument bounds the
number of iterations. -/
def ReadAllLoop : Nat → io.ReadCloser → Bytes → Bytes × Option GoError × io.ReadCloser
  | 0, s, b => (b, none, s)
  | n + 1, s, b =>
    match s.Read with
    | (c, none, s1) => ReadAllLoop n s1 (b ++ c)
    | (c, some io.ReadError.EOF, s1) => (b ++ c, none, s1)
    | (c, some (io.ReadError.failure e), s1) => (b ++ c, some e, s1)

/-- The call `ioutil.ReadAll(r)`: the bytes read, the error (nil at end of
stream) and the stream afterwards.  A stream with `k` blocks needs `k + 1`
calls of `Read`. -/
def ReadAll (s : io.ReadCloser) : Bytes × Option GoError × io.ReadCloser :=
  ReadAllLoop (s.chunks.length + 1) s []

end ioutil

namespace bytes

/-- The stream `ioutil.NopCloser(bytes.NewReader(b))`: a reader positioned at
the start of `b`, which reports `io.EOF` when no byte is left. -/
def NewReader (b : Bytes) : io.ReadCloser :=
  { chunks := if b = [] then [] else [b], failure := none, closed := 0 }

end bytes

namespace strings

/-- The stream `ioutil.NopCloser(strings.NewReader(s))` for the bytes of `s`. -/
def NewReader (s : Bytes) : io.ReadCloser :=
  { chunks := if s = [] then [] else [s], failure := none, closed := 0 }

end strings

namespace http

/-- A Go `http.Header` (`map[string][]string`), as an association list. -/
abbrev Header := List (String × List String)

/-- A `url.URL`; `raw` is its text. -/
structure URL where
  raw : String
  deriving DecidableEq, Repr

/-- The method `(*url.URL).String`. -/
def URL.String (u : URL) : String := u.raw

/-- An `http.Request` as `RoundTrip` receives it.  The `http.RoundTripper`
contract requires `URL` and `Header` to be initialised, so both are present.
`Body` is the address of the request body stream, if any. -/
structure Request where
  Method : String
  URL : URL
  Header : Header
  Body : Option Addr
  deriving DecidableEq, Repr

/-- A `tls.ConnectionState`. -/
structure ConnectionState where
  ServerName : String
  deriving DecidableEq, Repr

/-- An `http.Response` object.  Maps and slices may be nil (`none`); `Body` is a
nil interface or the address of a stream; `Request` is the back-reference. -/
structure Response where
  Status : String
  StatusCode : Int
  Proto : String
  ProtoMajor : Int
  ProtoMinor : Int
  Header : Option http.Header
  Body : Option Addr
  ContentLength : Int
  TransferEncoding : Option (List String)
  Close : Bool
  Uncompressed : Bool
  Trailer : Option http.Header
  Request : Option http.Request
  TLS : Option ConnectionState
  deriving DecidableEq, Repr

end http

/-- The objects that pointers refer to; an address is a position in the list. -/
structure Heap where
  bodies : List io.ReadCloser
  responses : List http.Response
  deriving DecidableEq, Repr

/-- An effect performed by `RoundTrip`. -/
inductive Event where
  | atomicAdd (value : Nat)
  | log (line : String)
  | invoke (r : http.Request)
  | returned (resp : Option Addr) (err : Option GoError)
  | readAll (body : Addr)
  | close (body : Addr)
  deriving DecidableEq, Repr

/-- The state `RoundTrip` runs in. -/
structure World (σ : Type) where
  requestIDCounter : Nat
  clock : List Int
  trace : List Event
  heap : Heap
  outside : σ

/-- What a call of `transport.RoundTrip(r)` hands back: the pair `(resp, err)`,
the heap and outside state it leaves, and `nested`, the number of calls of
`(*LoggingRoundTripper).RoundTrip` that ran inside it.  The counter
`requestIDCounter` is unexported and line 26 is the only code that writes it,
so a transport changes the counter exactly by the atomic adds of such nested
calls, one each. -/
structure TransportResult (σ : Type) where
  resp : Option Addr
  err : Option GoError
  heap : Heap
  outside : σ
  nested : Nat

/-- An `http.RoundTripper`: given the request, the heap and the outside state it
returns a `TransportResult`.  It may be, or call, another
`*LoggingRoundTripper` (then `nested` is positive).  Whatever such nested calls
print goes to the logger from inside the transport; the trace of the calling
method holds the effects of the calling method only. -/
abbrev RoundTripper (σ : Type) := http.Request → Heap → σ → TransportResult σ

/-- The external code `RoundTrip` calls.  `GetCurlCommand` is
`http2curl.GetCurlCommand`: it returns the text that `%s` prints for the command
together with the error; the spec takes it to be free of side effects.
`fmtHeader` is the `%+v` rendering of a header map, `fmtDuration` the `%s`
rendering of a `time.Duration` given in nanoseconds, and `fmtBody` the text that
`%s` shows for `string(respBody)` (Go writes the bytes unchanged). -/
structure Env (σ : Type) where
  GetCurlCommand : http.Request → String × Option GoError
  DefaultTransport : RoundTripper σ
  fmtHeader : Option http.Header → String
  fmtDuration : Int → String
  fmtBody : Bytes → String

/-- Append one effect to the trace. -/
def World.emit {σ : Type} (w : World σ) (e : Event) : World σ :=
  { w with trace := w.trace ++ [e] }

/-- The call `resp.Body.Close()` on the stream at address `b`. -/
def Heap.close (h : Heap) (b : Addr) : Heap :=
  match h.bodies[b]? with
  | some s => { h with bodies := h.bodies.set b s.Close }
  | none => h

namespace atomic

/-- The call `atomic.AddUint64(&requestIDCounter, delta)`: add with wrap-around
at `2^64`, store, and return the new value. -/
def AddUint64 {σ : Type} (delta : Nat) (w : World σ) : Nat × World σ :=
  let v := (w.requestIDCounter + delta) % 2 ^ 64
  (v, { w with requestIDCounter := v, trace := w.trace ++ [Event.atomicAdd v] })

end atomic

namespace log

/-- The call `log.Printf(...)` with the formatted text `line`: the text handed
to the logger.  The date and time the standard logger puts in front of it are
not part of the model. -/
def Printf {σ : Type} (line : String) (w : World σ) : World σ :=
  w.emit (Event.log line)

end log

namespace time

/-- The call `time.Now()`: the next reading of the clock. -/
def Now {σ : Type} (w : World σ) : Int × World σ :=
  match w.clock with
  | [] => (0, w)
  | t :: rest => (t, { w with clock := rest })

/-- The call `time.Since(start)`, that is `time.Now().Sub(start)`. -/
def Since {σ : Type} (start : Int) (w : World σ) : Int × World σ :=
  let (t, w1) := Now w
  (t - start, w1)

end time

/-- The struct `LoggingRoundTripper`. -/
structure LoggingRoundTripper (σ : Type) where
  LogOnly : Bool
  InnerTransport : Option (RoundTripper σ)

/-- How a call of `RoundTrip` ends: it returns the pair `(resp, err)`, or it
panics on a nil dereference. -/
inductive Outcome where
  | returned (resp : Option Addr) (err : Option GoError)
  | panicked
  deriving DecidableEq, Repr

/-- The response literal `dummyResp` of the log-only branch, with its body
stream at address `body`. -/
def dummyResp (r : http.Request) (body : Addr) : http.Response :=
  { Status := "200 OK"
    StatusCode := 200
    Proto := "HTTP/1.0"
    ProtoMajor := 1
    ProtoMinor := 0
    Header := some []
    Body := some body
    ContentLength := -1
    TransferEncoding := none
    Close := false
    Uncompressed := false
    Trailer := some []
    Request := some r
    TLS := none }

/-- The method `func (l *LoggingRoundTripper) RoundTrip(r *http.Request)
(*http.Response, error)`. -/
def LoggingRoundTripper.RoundTrip {σ : Type} (env : Env σ) (l : LoggingRoundTripper σ)
    (r : http.Request) (w : World σ) : Outcome × World σ :=
  match atomic.AddUint64 1 w with
  | (requestID, w) =>
  match env.GetCurlCommand r with
  | (curlCommand, err) =>
  let w : World σ :=
    match err with
    | some e =>
      log.Printf ("loggingroundtripper|ERROR||req:" ++ toString requestID
        ++ "|LoggingRoundTripper: converting request to curl: " ++ e.Error) w
    | none => w
  if l.LogOnly then
    let bodyAddr := w.heap.bodies.length
    let respAddr := w.heap.responses.length
    let w : World σ := { w with heap :=
      { bodies := w.heap.bodies ++ [strings.NewReader []]
        responses := w.heap.responses ++ [dummyResp r bodyAddr] } }
    let w := log.Printf ("loggingroundtripper|INFO||req:" ++ toString requestID
      ++ "|Pretend HTTP Request: " ++ curlCommand) w
    let w := log.Printf ("loggingroundtripper|INFO||req:" ++ toString requestID
      ++ "|Pretend HTTP Response: URL:" ++ r.URL.String
      ++ ", StatusCode:" ++ toString (dummyResp r bodyAddr).StatusCode
      ++ ", Header:" ++ env.fmtHeader (dummyResp r bodyAddr).Header
      ++ ", Body:" ++ "") w
    (Outcome.returned (some respAddr) none, w)
  else
    let w := log.Printf ("loggingroundtripper|INFO||req:" ++ toString requestID
      ++ "|Real HTTP Request: " ++ curlCommand) w
    match time.Now w with
    | (start, w) =>
    let transport : RoundTripper σ :=
      match l.InnerTransport with
      | some t => t
      | none => env.DefaultTransport
    let w := w.emit (Event.invoke r)
    let res := transport r w.heap w.outside
    let w : World σ :=
      { w with
        heap := res.heap
        outside := res.outside
        requestIDCounter := (w.requestIDCounter + res.nested) % 2 ^ 64 }
    let w := w.emit (Event.returned res.resp res.err)
    match res.err with
    | some e =>
      let w := log.Printf ("loggingroundtripper|ERROR||req:" ++ toString requestID
        ++ "|request: " ++ e.Error) w
      (Outcome.returned res.resp (some e), w)
    | none =>
      -- defer resp.Body.Close(): resp and resp.Body are dereferenced here
      match res.resp with
      | none => (Outcome.panicked, w)
      | some p =>
      match w.heap.responses[p]? with
      | none => (Outcome.panicked, w)
      | some resp =>
      match resp.Body with
      | none => (Outcome.panicked, w)
      | some b =>
      match w.heap.bodies[b]? with
      | none => (Outcome.panicked, w)
      | some s =>
      match ioutil.ReadAll s with
      | (respBody, err, s1) =>
      let w : World σ := { w with heap := { w.heap with bodies := w.heap.bodies.set b s1 } }
      let w := w.emit (Event.readAll b)
      match err with
      | some e =>
        let w := log.Printf ("loggingroundtripper|ERROR||req:" ++ toString requestID
          ++ "|reading body: " ++ e.Error) w
        -- the deferred Close runs
        let w : World σ := { w with heap := w.heap.close b }
        let w := w.emit (Event.close b)
        (Outcome.returned (some p) (some e), w)
      | none =>
        match time.Since start w with
        | (elapsed, w) =>
        let w := log.Printf ("loggingroundtripper|INFO||req:" ++ toString requestID
          ++ "|Real HTTP Response: Duration:" ++ env.fmtDuration elapsed
          ++ ", URL:" ++ r.URL.String
          ++ ", StatusCode:" ++ toString resp.StatusCode
          ++ ", Header:" ++ env.fmtHeader resp.Header
          ++ ", Body:" ++ env.fmtBody respBody) w
        let newAddr := w.heap.bodies.length
        let w : World σ := { w with heap :=
          { bodies := w.heap.bodies ++ [bytes.NewReader respBody]
            responses := w.heap.responses.set p { resp with Body := some newAddr } } }
        -- the deferred Close runs, on the stream the transport returned
        let w : World σ := { w with heap := w.heap.close b }
        let w := w.emit (Event.close b)
        (Outcome.returned (some p) none, w)

/-- The events a call added to the trace: what the trace `after` holds beyond
the trace `before`. -/
def emitted {σ : Type} (before after : World σ) : List Event :=
  after.trace.drop before.trace.length

/-- The log lines among some events, in order. -/
def logLines (evs : List Event) : List String :=
  evs.filterMap (fun e => match e with
    | Event.log line => some line
    | _ => none)

/-- The values the atomic add returned among some events, in order. -/
def allocatedIDs (evs : List Event) : List Nat :=
  evs.filterMap (fun e => match e with
    | Event.atomicAdd v => some v
    | _ => none)

/-- The requests the inner transport was invoked with among some events. -/
def invocations (evs : List Event) : List http.Request :=
  evs.filterMap (fun e => match e with
    | Event.invoke r => some r
    | _ => none)

/-- The streams `Close` was called on among some events, in order. -/
def closes (evs : List Event) : List Addr :=
  evs.filterMap (fun e => match e with
    | Event.close b => some b
    | _ => none)

/-- The streams `ReadAll` was called on among some events, in order. -/
def reads (evs : List Event) : List Addr :=
  evs.filterMap (fun e => match e with
    | Event.readAll b => some b
    | _ => none)

/-- Successive calls of `RoundTrip`, each on its own receiver and request, run
one after the other on the same process state.  For every call the result
lists its outcome and the events it emitted. -/
def RoundTrips {σ : Type} (env : Env σ) :
    List (LoggingRoundTripper σ × http.Request) → World σ →
      List (Outcome × List Event) × World σ
  | [], w => ([], w)
  | c :: rest, w =>
    match c.1.RoundTrip env c.2 w with
    | (o, w1) =>
      match RoundTrips env rest w1 with
      | (os, w2) => ((o, emitted w w1) :: os, w2)

/-! ### Concrete scenarios -/

/-- The bytes of the text `hello`. -/
def helloBytes : Bytes := [104, 101, 108, 108, 111]

/-- A `GET` request without a body. -/
def exampleRequest : http.Request :=
  { Method := "GET", URL := { raw := "http://example.com/" }, Header := [], Body := none }

/-- A process state at start-up: the counter is zero, nothing is allocated,
nothing has happened; the outside state counts the calls of the transport. -/
def startWorld : World Nat :=
  { requestIDCounter := 0, clock := [10, 25], trace := [], heap := { bodies := [], responses := [] },
    outside := 0 }

/-- A transport that answers `200 OK` with the given body stream. -/
def okTransport (body : io.ReadCloser) : RoundTripper Nat := fun r h calls =>
  { resp := some h.responses.length
    err := none
    heap :=
      { bodies := h.bodies ++ [body]
        responses := h.responses ++
          [{ Status := "200 OK", StatusCode := 200, Proto := "HTTP/1.1", ProtoMajor := 1,
             ProtoMinor := 1, Header := some [("Content-Type", ["text/plain"])],
             Body := some h.bodies.length, ContentLength := 5, TransferEncoding := none,
             Close := false, Uncompressed := false, Trailer := none, Request := some r,
             TLS := none }] }
    outside := calls + 1
    nested := 0 }

/-- The response object `okTransport` allocates for `exampleRequest` on an empty heap. -/
def okResponse : http.Response :=
  { Status := "200 OK", StatusCode := 200, Proto := "HTTP/1.1", ProtoMajor := 1,
    ProtoMinor := 1, Header := some [("Content-Type", ["text/plain"])],
    Body := some 0, ContentLength := 5, TransferEncoding := none,
    Close := false, Uncompressed := false, Trailer := none, Request := some exampleRequest,
    TLS := none }

/-- A stream that delivers `hello` and then ends. -/
def helloBody : io.ReadCloser :=
  { chunks := [helloBytes], failure := none, closed := 0 }

/-- A stream that delivers `he` and then fails. -/
def brokenBody : io.ReadCloser :=
  { chunks := [[104, 101]], failure := some { Error := "unexpected EOF" }, closed := 0 }

/-- A transport that fails with the given message and no response. -/
def failingTransport (message : String) : RoundTripper Nat := fun _ h calls =>
  { resp := none, err := some { Error := message }, heap := h, outside := calls + 1, nested := 0 }

/-- An environment whose renderer succeeds.  The bodies of the scenarios are
ASCII, which `fmtBody` shows character by character. -/
def exampleEnv : Env Nat :=
  { GetCurlCommand := fun r => ("curl -X " ++ r.Method ++ " " ++ r.URL.String, none)
    DefaultTransport := failingTransport "no route to host"
    fmtHeader := fun _ => "map[]"
    fmtDuration := fun d => toString d ++ "ns"
    fmtBody := fun b => String.mk (b.map (fun c => Char.ofNat c.toNat)) }

/-- A transport that returns a nil response with a nil error. -/
def nilTransport : RoundTripper Nat := fun _ h calls =>
  { resp := none, err := none, heap := h, outside := calls + 1, nested := 0 }

/-- An inner transport that is itself a `*LoggingRoundTripper` in simulate mode:
the nested call runs the atomic add once on the same counter and hands back its
dummy response with a nil error. -/
def nestedPretendTransport : RoundTripper Nat := fun r h calls =>
  { resp := some h.responses.length
    err := none
    heap :=
      { bodies := h.bodies ++ [strings.NewReader []]
        responses := h.responses ++ [dummyResp r h.bodies.length] }
    outside := calls
    nested := 1 }

/-- The receiver of the real-mode scenarios with the given inner transport. -/
def realTripper (t : RoundTripper Nat) : LoggingRoundTripper Nat :=
  { LogOnly := false, InnerTransport := some t }

/-- The receiver of the simulate-mode scenario. -/
def pretendTripper : LoggingRoundTripper Nat :=
  { LogOnly := true, InnerTransport := some (failingTransport "must not be called") }

/-- The shape of a log line in the spec's words:
`component|SEVERITY||req:<id>|<message>` with the component name
`loggingroundtripper` and the id in decimal. -/
def logLineForm (severity : String) (id : Nat) (message : String) : String :=
  "loggingroundtripper|" ++ severity ++ "||req:" ++ toString id ++ "|" ++ message

/-! ### Descriptions used in the statements -/

/-- The identifier a call started in `w` allocates. -/
def nextID {σ : Type} (w : World σ) : Nat := (w.requestIDCounter + 1) % 2 ^ 64

/-- The events every call starts with: the atomic add and, when the renderer
failed, the line reporting it. -/
def openingEvents {σ : Type} (env : Env σ) (r : http.Request) (w : World σ) : List Event :=
  Event.atomicAdd (nextID w) ::
    match (env.GetCurlCommand r).2 with
    | some e => [Event.log ("loggingroundtripper|ERROR||req:" ++ toString (nextID w)
        ++ "|LoggingRoundTripper: converting request to curl: " ++ e.Error)]
    | none => []

/-- The transport a real-mode call uses. -/
def chosenTransport {σ : Type} (env : Env σ) (l : LoggingRoundTripper σ) : RoundTripper σ :=
  match l.InnerTransport with
  | some t => t
  | none => env.DefaultTransport

/-- The events of a real-mode call up to the completion of the transport call. -/
def realEvents {σ : Type} (env : Env σ) (l : LoggingRoundTripper σ) (r : http.Request)
    (w : World σ) : List Event :=
  openingEvents env r w ++
    [Event.log ("loggingroundtripper|INFO||req:" ++ toString (nextID w)
        ++ "|Real HTTP Request: " ++ (env.GetCurlCommand r).1),
     Event.invoke r,
     Event.returned (chosenTransport env l r w.heap w.outside).resp
       (chosenTransport env l r w.heap w.outside).err]

/-- The dereferences `resp.Body` of the `defer` statement succeed: `resp` is the
address of a response whose `Body` is the address of a stream. -/
def derefBody (h : Heap) (resp : Option Addr) : Option (Addr × http.Response × Addr × io.ReadCloser) :=
  match resp with
  | none => none
  | some p =>
    match h.responses[p]? with
    | none => none
    | some X =>
      match X.Body with
      | none => none
      | some b =>
        match h.bodies[b]? with
        | none => none
        | some s => some (p, X, b, s)

/-- The line that reports a renderer failure, if the renderer failed, in the
form of the spec. -/
def renderErrorLines {σ : Type} (env : Env σ) (r : http.Request) (id : Nat) : List Event :=
  match (env.GetCurlCommand r).2 with
  | some e => [Event.log (logLineForm "ERROR" id
      ("LoggingRoundTripper: converting request to curl: " ++ e.Error))]
  | none => []

/-- What a call adds to the trace after the atomic add and the possible
renderer-failure line, by path; `id` is the identifier of the call and `tr` the
result of its transport (unused in simulate mode). -/
inductive CallTail {σ : Type} (env : Env σ) (l : LoggingRoundTripper σ) (r : http.Request)
    (id : Nat) (tr : TransportResult σ) : Outcome → List Event → Prop where
  | pretend (p : Addr) (details : String) (hm : l.LogOnly = true) :
      CallTail env l r id tr (Outcome.returned (some p) none)
        [Event.log (logLineForm "INFO" id ("Pretend HTTP Request: " ++ (env.GetCurlCommand r).1)),
         Event.log (logLineForm "INFO" id ("Pretend HTTP Response: " ++ details))]
  | transportError (e : GoError) (hm : l.LogOnly = false) (he : tr.err = some e) :
      CallTail env l r id tr (Outcome.returned tr.resp (some e))
        [Event.log (logLineForm "INFO" id ("Real HTTP Request: " ++ (env.GetCurlCommand r).1)),
         Event.invoke r,
         Event.returned tr.resp tr.err,
         Event.log (logLineForm "ERROR" id ("request: " ++ e.Error))]
  | panic (hm : l.LogOnly = false) (he : tr.err = none) :
      CallTail env l r id tr Outcome.panicked
        [Event.log (logLineForm "INFO" id ("Real HTTP Request: " ++ (env.GetCurlCommand r).1)),
         Event.invoke r,
         Event.returned tr.resp tr.err]
  | readError (p b : Addr) (e : GoError) (hm : l.LogOnly = false) (he : tr.err = none)
      (hp : tr.resp = some p) :
      CallTail env l r id tr (Outcome.returned (some p) (some e))
        [Event.log (logLineForm "INFO" id ("Real HTTP Request: " ++ (env.GetCurlCommand r).1)),
         Event.invoke r,
         Event.returned tr.resp tr.err,
         Event.readAll b,
         Event.log (logLineForm "ERROR" id ("reading body: " ++ e.Error)),
         Event.close b]
  | success (p b : Addr) (details : String) (hm : l.LogOnly = false) (he : tr.err = none)
      (hp : tr.resp = some p) :
      CallTail env l r id tr (Outcome.returned (some p) none)
        [Event.log (logLineForm "INFO" id ("Real HTTP Request: " ++ (env.GetCurlCommand r).1)),
         Event.invoke r,
         Event.returned tr.resp tr.err,
         Event.readAll b,
         Event.log (logLineForm "INFO" id ("Real HTTP Response: " ++ details)),
         Event.close b]

/-- A renderer that fails on every request. -/
def failingRender : http.Request → String × Option GoError :=
  fun _ => ("<nil>", some { Error := "getCurlCommand: buffer read from body error" })

/-- The process state in which the counter holds the largest `uint64`. -/
def fullWorld : World Nat :=
  { startWorld with requestIDCounter := 18446744073709551615 }

/-! ## Reading a stream -/

theorem ReadAllLoop_eq (n : Nat) (s : io.ReadCloser) (b : Bytes)
    (h : s.chunks.length < n) :
    ioutil.ReadAllLoop n s b =
      (b ++ s.chunks.flatten, s.failure, { s with chunks := [] }) := by
  induction n generalizing s b with
  | zero => omega
  | succ n ih =>
    obtain ⟨chunks, failure, closed⟩ := s
    cases chunks with
    | nil =>
      cases failure <;> simp [ioutil.ReadAllLoop, io.ReadCloser.Read]
    | cons c rest =>
      simp only [List.length_cons, Nat.add_lt_add_iff_right] at h
      have h2 := ih { chunks := rest, failure := failure, closed := closed } (b ++ c) h
      simp [ioutil.ReadAllLoop, io.ReadCloser.Read, h2]

theorem ReadAll_eq (s : io.ReadCloser) :
    ioutil.ReadAll s = (s.chunks.flatten, s.failure, { s with chunks := [] }) := by
  simpa using ReadAllLoop_eq (s.chunks.length + 1) s [] (Nat.lt_succ_self _)

theorem emitted_append {σ : Type} (w w1 : World σ) (evs : List Event)
    (h : w1.trace = w.trace ++ evs) : emitted w w1 = evs := by
  simp [emitted, h]

/-! ## The paths through `RoundTrip` -/

theorem RoundTrip_logOnly {σ : Type} (env : Env σ) (l : LoggingRoundTripper σ)
    (r : http.Request) (w : World σ) (h : l.LogOnly = true) :
    l.RoundTrip env r w =
      (Outcome.returned (some w.heap.responses.length) none,
        { requestIDCounter := nextID w
          clock := w.clock
          trace := w.trace ++ (openingEvents env r w ++
            [Event.log ("loggingroundtripper|INFO||req:" ++ toString (nextID w)
              ++ "|Pretend HTTP Request: " ++ (env.GetCurlCommand r).1),
             Event.log ("loggingroundtripper|INFO||req:" ++ toString (nextID w)
              ++ "|Pretend HTTP Response: URL:" ++ r.URL.String
              ++ ", StatusCode:" ++ toString (200 : Int)
              ++ ", Header:" ++ env.fmtHeader (some [])
              ++ ", Body:" ++ "")])
          heap :=
            { bodies := w.heap.bodies ++ [strings.NewReader []]
              responses := w.heap.responses ++ [dummyResp r w.heap.bodies.length] }
          outside := w.outside }) := by
  unfold LoggingRoundTripper.RoundTrip
  rcases hg : env.GetCurlCommand r with ⟨cmd, _ | e⟩ <;>
    simp [h, hg, atomic.AddUint64, log.Printf, World.emit, openingEvents, nextID, dummyResp]

theorem Now_eq {σ : Type} (w : World σ) :
    time.Now w = (w.clock.headD 0, { w with clock := w.clock.tail }) := by
  unfold time.Now
  cases h : w.clock <;> simp
  cases w; simp_all

theorem RoundTrip_transportError {σ : Type} (env : Env σ) (l : LoggingRoundTripper σ)
    (r : http.Request) (w : World σ) (h : l.LogOnly = false) (e : GoError)
    (he : (chosenTransport env l r w.heap w.outside).err = some e) :
    l.RoundTrip env r w =
      (Outcome.returned (chosenTransport env l r w.heap w.outside).resp (some e),
        { requestIDCounter :=
            (nextID w + (chosenTransport env l r w.heap w.outside).nested) % 2 ^ 64
          clock := w.clock.tail
          trace := w.trace ++ (realEvents env l r w ++
            [Event.log ("loggingroundtripper|ERROR||req:" ++ toString (nextID w)
              ++ "|request: " ++ e.Error)])
          heap := (chosenTransport env l r w.heap w.outside).heap
          outside := (chosenTransport env l r w.heap w.outside).outside }) := by
  unfold LoggingRoundTripper.RoundTrip
  rcases l with ⟨lo, _ | t⟩ <;>
  rcases hg : env.GetCurlCommand r with ⟨cmd, _ | e1⟩ <;>
    simp_all [Now_eq, atomic.AddUint64, log.Printf, World.emit, openingEvents, nextID,
      realEvents, chosenTransport]

theorem RoundTrip_readError {σ : Type} (env : Env σ) (l : LoggingRoundTripper σ)
    (r : http.Request) (w : World σ) (h : l.LogOnly = false)
    (p b : Addr) (X : http.Response) (s : io.ReadCloser) (e : GoError)
    (he : (chosenTransport env l r w.heap w.outside).err = none)
    (hp : (chosenTransport env l r w.heap w.outside).resp = some p)
    (hX : (chosenTransport env l r w.heap w.outside).heap.responses[p]? = some X)
    (hb : X.Body = some b)
    (hs : (chosenTransport env l r w.heap w.outside).heap.bodies[b]? = some s)
    (hf : s.failure = some e) :
    l.RoundTrip env r w =
      (Outcome.returned (some p) (some e),
        { requestIDCounter :=
            (nextID w + (chosenTransport env l r w.heap w.outside).nested) % 2 ^ 64
          clock := w.clock.tail
          trace := w.trace ++ (realEvents env l r w ++
            [Event.readAll b,
             Event.log ("loggingroundtripper|ERROR||req:" ++ toString (nextID w)
              ++ "|reading body: " ++ e.Error),
             Event.close b])
          heap :=
            { bodies := (chosenTransport env l r w.heap w.outside).heap.bodies.set b
                { chunks := [], failure := s.failure, closed := s.closed + 1 }
              responses := (chosenTransport env l r w.heap w.outside).heap.responses }
          outside := (chosenTransport env l r w.heap w.outside).outside }) := by
  have hlt : b < (chosenTransport env l r w.heap w.outside).heap.bodies.length := by
    rcases List.getElem?_eq_some.mp hs with ⟨hlt, _⟩
    exact hlt
  unfold LoggingRoundTripper.RoundTrip
  rcases l with ⟨lo, _ | t⟩ <;>
  rcases hg : env.GetCurlCommand r with ⟨cmd, _ | e1⟩ <;>
    simp_all [Now_eq, atomic.AddUint64, log.Printf, World.emit, openingEvents, nextID,
      realEvents, chosenTransport, ReadAll_eq, Heap.close, io.ReadCloser.Close]

theorem RoundTrip_success {σ : Type} (env : Env σ) (l : LoggingRoundTripper σ)
    (r : http.Request) (w : World σ) (h : l.LogOnly = false)
    (p b : Addr) (X : http.Response) (s : io.ReadCloser)
    (he : (chosenTransport env l r w.heap w.outside).err = none)
    (hp : (chosenTransport env l r w.heap w.outside).resp = some p)
    (hX : (chosenTransport env l r w.heap w.outside).heap.responses[p]? = some X)
    (hb : X.Body = some b)
    (hs : (chosenTransport env l r w.heap w.outside).heap.bodies[b]? = some s)
    (hf : s.failure = none) :
    l.RoundTrip env r w =
      (Outcome.returned (some p) none,
        { requestIDCounter :=
            (nextID w + (chosenTransport env l r w.heap w.outside).nested) % 2 ^ 64
          clock := w.clock.tail.tail
          trace := w.trace ++ (realEvents env l r w ++
            [Event.readAll b,
             Event.log ("loggingroundtripper|INFO||req:" ++ toString (nextID w)
              ++ "|Real HTTP Response: Duration:"
              ++ env.fmtDuration (w.clock.tail.headD 0 - w.clock.headD 0)
              ++ ", URL:" ++ r.URL.String
              ++ ", StatusCode:" ++ toString X.StatusCode
              ++ ", Header:" ++ env.fmtHeader X.Header
              ++ ", Body:" ++ env.fmtBody s.chunks.flatten),
             Event.close b])
          heap :=
            { bodies := (chosenTransport env l r w.heap w.outside).heap.bodies.set b
                { chunks := [], failure := none, closed := s.closed + 1 }
                ++ [bytes.NewReader s.chunks.flatten]
              responses := (chosenTransport env l r w.heap w.outside).heap.responses.set p
                { X with Body := some (chosenTransport env l r w.heap w.outside).heap.bodies.length } }
          outside := (chosenTransport env l r w.heap w.outside).outside }) := by
  have hlt : b < (chosenTransport env l r w.heap w.outside).heap.bodies.length := by
    rcases List.getElem?_eq_some.mp hs with ⟨hlt, _⟩
    exact hlt
  unfold LoggingRoundTripper.RoundTrip
  rcases l with ⟨lo, _ | t⟩ <;>
  rcases hg : env.GetCurlCommand r with ⟨cmd, _ | e1⟩ <;>
    simp_all [Now_eq, time.Since, atomic.AddUint64, log.Printf, World.emit, openingEvents,
      nextID, realEvents, chosenTransport, ReadAll_eq, Heap.close, io.ReadCloser.Close,
      List.getElem?_append_left, List.set_append_left]

theorem RoundTrip_panic {σ : Type} (env : Env σ) (l : LoggingRoundTripper σ)
    (r : http.Request) (w : World σ) (h : l.LogOnly = false)
    (he : (chosenTransport env l r w.heap w.outside).err = none)
    (hd : derefBody (chosenTransport env l r w.heap w.outside).heap
      (chosenTransport env l r w.heap w.outside).resp = none) :
    l.RoundTrip env r w =
      (Outcome.panicked,
        { requestIDCounter :=
            (nextID w + (chosenTransport env l r w.heap w.outside).nested) % 2 ^ 64
          clock := w.clock.tail
          trace := w.trace ++ realEvents env l r w
          heap := (chosenTransport env l r w.heap w.outside).heap
          outside := (chosenTransport env l r w.heap w.outside).outside }) := by
  unfold derefBody at hd
  split at hd <;> [skip; (split at hd <;> [skip; (split at hd <;> [skip;
    (split at hd <;> [skip; simp at hd])])])]
  all_goals
    unfold LoggingRoundTripper.RoundTrip
    rcases l with ⟨lo, _ | t⟩ <;>
    rcases hg : env.GetCurlCommand r with ⟨cmd, _ | e1⟩ <;>
      simp only [chosenTransport] at * <;>
      simp [*, Now_eq, atomic.AddUint64, log.Printf, World.emit, openingEvents,
        nextID, realEvents, chosenTransport]

theorem derefBody_some {h : Heap} {resp : Option Addr} {p b : Addr} {X : http.Response}
    {s : io.ReadCloser} (hd : derefBody h resp = some (p, X, b, s)) :
    resp = some p ∧ h.responses[p]? = some X ∧ X.Body = some b ∧ h.bodies[b]? = some s := by
  unfold derefBody at hd
  split at hd
  · simp at hd
  · split at hd
    · simp at hd
    · split at hd
      · simp at hd
      · split at hd
        · simp at hd
        · simp only [Option.some.injEq, Prod.mk.injEq] at hd
          obtain ⟨rfl, rfl, rfl, rfl⟩ := hd
          simp [*]

theorem openingEvents_eq {σ : Type} (env : Env σ) (r : http.Request) (w : World σ) :
    openingEvents env r w = Event.atomicAdd (nextID w) :: renderErrorLines env r (nextID w) := by
  have h1 : "loggingroundtripper|ERROR||req:" = "loggingroundtripper|" ++ ("ERROR" ++ "||req:") := by
    decide
  have h2 : "|LoggingRoundTripper: converting request to curl: "
      = "|" ++ "LoggingRoundTripper: converting request to curl: " := by decide
  unfold openingEvents renderErrorLines
  cases (env.GetCurlCommand r).2 with
  | none => rfl
  | some e =>
    simp only [logLineForm, h1, h2, String.append_assoc]

theorem nextID_lt {σ : Type} (w : World σ) : nextID w < 2 ^ 64 :=
  Nat.mod_lt _ (by decide)

theorem RoundTrip_trace {σ : Type} (env : Env σ) (l : LoggingRoundTripper σ)
    (r : http.Request) (w : World σ) :
    (l.RoundTrip env r w).2.requestIDCounter =
      (nextID w + (if l.LogOnly then 0 else (chosenTransport env l r w.heap w.outside).nested))
        % 2 ^ 64 ∧
    (l.RoundTrip env r w).2.outside =
      (if l.LogOnly then w.outside else (chosenTransport env l r w.heap w.outside).outside) ∧
    ∃ tail, (l.RoundTrip env r w).2.trace =
        w.trace ++ (Event.atomicAdd (nextID w) :: renderErrorLines env r (nextID w) ++ tail) ∧
      CallTail env l r (nextID w) (chosenTransport env l r w.heap w.outside)
        (l.RoundTrip env r w).1 tail := by
  have hI : "loggingroundtripper|INFO||req:" = "loggingroundtripper|" ++ ("INFO" ++ "||req:") := by
    decide
  have hE : "loggingroundtripper|ERROR||req:" = "loggingroundtripper|" ++ ("ERROR" ++ "||req:") := by
    decide
  have h1 : "|Pretend HTTP Request: " = "|" ++ "Pretend HTTP Request: " := by decide
  have h2 : "|Pretend HTTP Response: URL:" = "|" ++ ("Pretend HTTP Response: " ++ "URL:") := by
    decide
  have h3 : "|Real HTTP Request: " = "|" ++ "Real HTTP Request: " := by decide
  have h4 : "|request: " = "|" ++ "request: " := by decide
  have h5 : "|reading body: " = "|" ++ "reading body: " := by decide
  have h6 : "|Real HTTP Response: Duration:" = "|" ++ ("Real HTTP Response: " ++ "Duration:") := by
    decide
  rw [← openingEvents_eq]
  cases hm : l.LogOnly with
  | true =>
    rw [RoundTrip_logOnly env l r w hm]
    refine ⟨?_, rfl, _, ?_, CallTail.pretend _
      ("URL:" ++ r.URL.String ++ ", StatusCode:" ++ toString (200 : Int)
        ++ ", Header:" ++ env.fmtHeader (some []) ++ ", Body:" ++ "") hm⟩
    · simp only [↓reduceIte, Nat.add_zero]
      exact (Nat.mod_eq_of_lt (nextID_lt w)).symm
    · simp only [logLineForm, hI, h1, h2, String.append_assoc]
  | false =>
    cases he : (chosenTransport env l r w.heap w.outside).err with
    | some e =>
      rw [RoundTrip_transportError env l r w hm e he]
      refine ⟨by simp, by simp, _, ?_, CallTail.transportError e hm he⟩
      simp only [realEvents, he, logLineForm, hI, hE, h3, h4, String.append_assoc,
        List.append_assoc, List.cons_append, List.nil_append]
    | none =>
      cases hd : derefBody (chosenTransport env l r w.heap w.outside).heap
          (chosenTransport env l r w.heap w.outside).resp with
      | none =>
        rw [RoundTrip_panic env l r w hm he hd]
        refine ⟨by simp, by simp, _, ?_, CallTail.panic hm he⟩
        simp only [realEvents, he, logLineForm, hI, h3, String.append_assoc,
          List.append_assoc, List.cons_append, List.nil_append]
      | some q =>
        obtain ⟨p, X, b, s⟩ := q
        obtain ⟨hp, hX, hb, hs⟩ := derefBody_some hd
        cases hf : s.failure with
        | some e =>
          rw [RoundTrip_readError env l r w hm p b X s e he hp hX hb hs hf]
          refine ⟨by simp, by simp, _, ?_, CallTail.readError p b e hm he hp⟩
          simp only [realEvents, he, hp, logLineForm, hI, hE, h3, h5, String.append_assoc,
            List.append_assoc, List.cons_append, List.nil_append]
        | none =>
          rw [RoundTrip_success env l r w hm p b X s he hp hX hb hs hf]
          refine ⟨by simp, by simp, _, ?_, CallTail.success p b
            ("Duration:" ++ env.fmtDuration (w.clock.tail.headD 0 - w.clock.headD 0)
              ++ ", URL:" ++ r.URL.String
              ++ ", StatusCode:" ++ toString X.StatusCode
              ++ ", Header:" ++ env.fmtHeader X.Header
              ++ ", Body:" ++ env.fmtBody s.chunks.flatten) hm he hp⟩
          simp only [realEvents, he, hp, logLineForm, hI, h3, h6, String.append_assoc,
            List.append_assoc, List.cons_append, List.nil_append]

theorem ReadAll_NewReader (B : Bytes) :
    ioutil.ReadAll (bytes.NewReader B) =
      (B, none, { chunks := [], failure := none, closed := 0 }) := by
  rw [ReadAll_eq]
  by_cases hB : B = [] <;> simp [bytes.NewReader, hB]

theorem invocations_openingEvents {σ : Type} (env : Env σ) (r : http.Request) (w : World σ) :
    invocations (openingEvents env r w) = [] := by
  unfold openingEvents
  cases (env.GetCurlCommand r).2 <;> simp [invocations]

theorem allocatedIDs_openingEvents {σ : Type} (env : Env σ) (r : http.Request) (w : World σ) :
    allocatedIDs (openingEvents env r w) = [nextID w] := by
  unfold openingEvents
  cases (env.GetCurlCommand r).2 <;> simp [allocatedIDs]

theorem RoundTrip_logOnly_obs {σ : Type} (env : Env σ) (l : LoggingRoundTripper σ)
    (r : http.Request) (w : World σ) (h : l.LogOnly = true) :
    (∃ evs, (l.RoundTrip env r w).2.trace = w.trace ++ evs ∧ invocations evs = []) ∧
    (l.RoundTrip env r w).2.outside = w.outside ∧
    ∃ p, (l.RoundTrip env r w).1 = Outcome.returned (some p) none := by
  rw [RoundTrip_logOnly env l r w h]
  refine ⟨⟨_, rfl, ?_⟩, rfl, _, rfl⟩
  have h0 := invocations_openingEvents env r w
  simp only [invocations] at h0 ⊢
  simp [List.filterMap_append, h0]

theorem RoundTrips_logOnly {σ : Type} (env : Env σ)
    (calls : List (LoggingRoundTripper σ × http.Request)) (w : World σ)
    (hmode : ∀ c ∈ calls, c.1.LogOnly = true) :
    (∃ evs, (RoundTrips env calls w).2.trace = w.trace ++ evs ∧ invocations evs = []) ∧
    (RoundTrips env calls w).2.outside = w.outside ∧
    (RoundTrips env calls w).1.length = calls.length ∧
    ∀ c ∈ (RoundTrips env calls w).1,
      invocations c.2 = [] ∧ ∃ p, c.1 = Outcome.returned (some p) none := by
  induction calls generalizing w with
  | nil => exact ⟨⟨[], by simp [RoundTrips], rfl⟩, rfl, rfl, by simp [RoundTrips]⟩
  | cons c rest ih =>
    have hc : c.1.LogOnly = true := hmode c (List.mem_cons_self _ _)
    obtain ⟨⟨evs1, htr1, hevs1⟩, hout1, p1, hp1⟩ := RoundTrip_logOnly_obs env c.1 c.2 w hc
    obtain ⟨⟨evs, htr, hevs⟩, hout, hlen, hall⟩ :=
      ih (c.1.RoundTrip env c.2 w).2 (fun d hd => hmode d (List.mem_cons_of_mem _ hd))
    simp only [RoundTrips]
    refine ⟨⟨evs1 ++ evs, ?_, ?_⟩, ?_, ?_, ?_⟩
    · rw [htr, htr1, List.append_assoc]
    · simp only [invocations] at hevs1 hevs ⊢
      rw [List.filterMap_append, hevs1, hevs]
      rfl
    · rw [hout, hout1]
    · simp [hlen]
    · intro d hd
      rcases List.mem_cons.mp hd with rfl | hd
      · refine ⟨?_, p1, hp1⟩
        show invocations (emitted w (c.1.RoundTrip env c.2 w).2) = []
        rw [emitted_append w _ _ htr1]
        exact hevs1
      · exact hall d hd

theorem renderErrorLines_obs {σ : Type} (env : Env σ) (r : http.Request) (id : Nat) :
    allocatedIDs (renderErrorLines env r id) = [] ∧
    invocations (renderErrorLines env r id) = [] ∧
    ∀ line ∈ logLines (renderErrorLines env r id),
      line = logLineForm "ERROR" id
        ("LoggingRoundTripper: converting request to curl: " ++
          ((env.GetCurlCommand r).2.getD { Error := "" }).Error) := by
  unfold renderErrorLines
  cases (env.GetCurlCommand r).2 <;> simp [allocatedIDs, invocations, logLines]

theorem CallTail_obs {σ : Type} {env : Env σ} {l : LoggingRoundTripper σ} {r : http.Request}
    {id : Nat} {tr : TransportResult σ} {o : Outcome} {tail : List Event}
    (h : CallTail env l r id tr o tail) :
    allocatedIDs tail = [] ∧
    ∀ line ∈ logLines tail, ∃ sev msg, (sev = "INFO" ∨ sev = "ERROR") ∧
      line = logLineForm sev id msg := by
  cases h <;> refine ⟨by simp [allocatedIDs], ?_⟩ <;> intro line hline <;>
    simp only [logLines, List.filterMap_cons, List.filterMap_nil, List.mem_cons,
      List.mem_singleton, List.not_mem_nil, or_false] at hline
  · rcases hline with rfl | rfl <;> exact ⟨"INFO", _, Or.inl rfl, rfl⟩
  · rcases hline with rfl | rfl
    · exact ⟨"INFO", _, Or.inl rfl, rfl⟩
    · exact ⟨"ERROR", _, Or.inr rfl, rfl⟩
  · subst hline
    exact ⟨"INFO", _, Or.inl rfl, rfl⟩
  · rcases hline with rfl | rfl
    · exact ⟨"INFO", _, Or.inl rfl, rfl⟩
    · exact ⟨"ERROR", _, Or.inr rfl, rfl⟩
  · rcases hline with rfl | rfl <;> exact ⟨"INFO", _, Or.inl rfl, rfl⟩

theorem RoundTrip_ids {σ : Type} (env : Env σ) (l : LoggingRoundTripper σ)
    (r : http.Request) (w : World σ) :
    (l.RoundTrip env r w).2.requestIDCounter =
      (nextID w + (if l.LogOnly then 0 else (chosenTransport env l r w.heap w.outside).nested))
        % 2 ^ 64 ∧
    (emitted w (l.RoundTrip env r w).2).head? = some (Event.atomicAdd (nextID w)) ∧
    allocatedIDs (emitted w (l.RoundTrip env r w).2) = [nextID w] ∧
    ∀ line ∈ logLines (emitted w (l.RoundTrip env r w).2),
      ∃ sev msg, (sev = "INFO" ∨ sev = "ERROR") ∧ line = logLineForm sev (nextID w) msg := by
  obtain ⟨hc, -, tail, htr, htail⟩ := RoundTrip_trace env l r w
  obtain ⟨h1, h2⟩ := CallTail_obs htail
  obtain ⟨h3, -, h4⟩ := renderErrorLines_obs env r (nextID w)
  rw [emitted_append w _ _ htr]
  refine ⟨hc, rfl, ?_, ?_⟩
  · simp only [allocatedIDs] at h1 h3 ⊢
    simp [List.filterMap_append, h1, h3]
  · intro line hline
    simp only [logLines, List.cons_append, List.filterMap_cons, List.filterMap_append,
      List.mem_append] at hline
    rcases hline with hline | hline
    · exact ⟨"ERROR", _, Or.inr rfl, h4 line hline⟩
    · exact h2 line hline

theorem RoundTrips_ids {σ : Type} (env : Env σ)
    (calls : List (LoggingRoundTripper σ × http.Request)) (w : World σ)
    (hbound : w.requestIDCounter + calls.length < 2 ^ 64)
    (hnested : ∀ c ∈ calls, c.1.LogOnly = false →
      ∀ h o, (chosenTransport env c.1 c.2 h o).nested = 0) :
    (RoundTrips env calls w).2.requestIDCounter = w.requestIDCounter + calls.length ∧
    (RoundTrips env calls w).1.map (fun c => allocatedIDs c.2) =
      (List.range' (w.requestIDCounter + 1) calls.length).map (fun i => [i]) ∧
    ∀ c ∈ List.zip (List.range' (w.requestIDCounter + 1) calls.length) (RoundTrips env calls w).1,
      c.2.2.head? = some (Event.atomicAdd c.1) ∧
      ∀ line ∈ logLines c.2.2, ∃ sev msg, (sev = "INFO" ∨ sev = "ERROR") ∧
        line = logLineForm sev c.1 msg := by
  induction calls generalizing w with
  | nil => simp [RoundTrips]
  | cons c rest ih =>
    simp only [List.length_cons] at hbound
    obtain ⟨hc, hhead, hids, hlines⟩ := RoundTrip_ids env c.1 c.2 w
    have hnext : nextID w = w.requestIDCounter + 1 := by
      unfold nextID
      exact Nat.mod_eq_of_lt (by omega)
    have hzero : (if c.1.LogOnly then 0 else (chosenTransport env c.1 c.2 w.heap w.outside).nested)
        = 0 := by
      cases hm : c.1.LogOnly with
      | true => simp
      | false => simpa using hnested c (List.mem_cons_self _ _) hm w.heap w.outside
    rw [hzero, hnext, Nat.add_zero, Nat.mod_eq_of_lt (by omega)] at hc
    rw [hnext] at hhead hids hlines
    obtain ⟨h1, h2, h3⟩ := ih (c.1.RoundTrip env c.2 w).2 (by rw [hc]; omega)
      (fun d hd => hnested d (List.mem_cons_of_mem _ hd))
    rw [hc] at h1 h2 h3
    simp only [RoundTrips, List.length_cons, List.map_cons, List.range'_succ, List.zip_cons_cons,
      List.mem_cons]
    refine ⟨by rw [h1]; omega, by rw [hids, h2], ?_⟩
    intro d hd
    rcases hd with rfl | hd
    · exact ⟨hhead, hlines⟩
    · exact h3 d hd

theorem closes_realEvents {σ : Type} (env : Env σ) (l : LoggingRoundTripper σ)
    (r : http.Request) (w : World σ) : closes (realEvents env l r w) = [] := by
  unfold realEvents openingEvents
  cases (env.GetCurlCommand r).2 <;> simp [closes]

theorem realRequestLine_eq (id : Nat) (cmd : String) :
    "loggingroundtripper|INFO||req:" ++ toString id ++ "|Real HTTP Request: " ++ cmd =
      logLineForm "INFO" id ("Real HTTP Request: " ++ cmd) := by
  have hI : "loggingroundtripper|INFO||req:" = "loggingroundtripper|" ++ ("INFO" ++ "||req:") := by
    decide
  have h3 : "|Real HTTP Request: " = "|" ++ "Real HTTP Request: " := by decide
  simp only [logLineForm, hI, h3, String.append_assoc]

theorem pretendRequestLine_eq (id : Nat) (cmd : String) :
    "loggingroundtripper|INFO||req:" ++ toString id ++ "|Pretend HTTP Request: " ++ cmd =
      logLineForm "INFO" id ("Pretend HTTP Request: " ++ cmd) := by
  have hI : "loggingroundtripper|INFO||req:" = "loggingroundtripper|" ++ ("INFO" ++ "||req:") := by
    decide
  have h3 : "|Pretend HTTP Request: " = "|" ++ "Pretend HTTP Request: " := by decide
  simp only [logLineForm, hI, h3, String.append_assoc]

/-- The transport `nestedPretendTransport` does what a simulate-mode call of
`RoundTrip` does to the shared state: the same pair `(resp, err)`, the same heap
and outside state, and the counter advanced by `nested`. -/
theorem nestedPretendTransport_spec (r : http.Request) (w : World Nat) :
    (pretendTripper.RoundTrip exampleEnv r w).1 =
      Outcome.returned (nestedPretendTransport r w.heap w.outside).resp
        (nestedPretendTransport r w.heap w.outside).err ∧
    (pretendTripper.RoundTrip exampleEnv r w).2.heap =
      (nestedPretendTransport r w.heap w.outside).heap ∧
    (pretendTripper.RoundTrip exampleEnv r w).2.outside =
      (nestedPretendTransport r w.heap w.outside).outside ∧
    (pretendTripper.RoundTrip exampleEnv r w).2.requestIDCounter =
      (w.requestIDCounter + (nestedPretendTransport r w.heap w.outside).nested) % 2 ^ 64 := by
  rw [RoundTrip_logOnly exampleEnv pretendTripper r w rfl]
  exact ⟨rfl, rfl, rfl, rfl⟩

/-! ## The claims -/

/-- C1: in real mode, when the transport returns the response `X` at address `p`
with a nil error and the body stream of `X` reads to completion as the bytes
`B`, `RoundTrip` returns `(p, nil)`: the same response object, every field but
`Body` unchanged and every other response untouched, and `Body` is a stream at
an address that was not in use before, never read or closed by the call, which
yields exactly `B` and then end of stream. -/
theorem RoundTrip_real_success {σ : Type} (env : Env σ) (l : LoggingRoundTripper σ)
    (r : http.Request) (w : World σ) (p b : Addr) (X : http.Response)
    (s s1 : io.ReadCloser) (B : Bytes)
    (hmode : l.LogOnly = false)
    (herr : (chosenTransport env l r w.heap w.outside).err = none)
    (hp : (chosenTransport env l r w.heap w.outside).resp = some p)
    (hX : (chosenTransport env l r w.heap w.outside).heap.responses[p]? = some X)
    (hb : X.Body = some b)
    (hs : (chosenTransport env l r w.heap w.outside).heap.bodies[b]? = some s)
    (hread : ioutil.ReadAll s = (B, none, s1)) :
    (l.RoundTrip env r w).1 = Outcome.returned (some p) none ∧
    ∃ fresh body drained,
      (chosenTransport env l r w.heap w.outside).heap.bodies.length ≤ fresh ∧
      (l.RoundTrip env r w).2.heap.responses[p]? = some { X with Body := some fresh } ∧
      (∀ q, q ≠ p → (l.RoundTrip env r w).2.heap.responses[q]? =
        (chosenTransport env l r w.heap w.outside).heap.responses[q]?) ∧
      (l.RoundTrip env r w).2.heap.bodies[fresh]? = some body ∧
      fresh ∉ reads (emitted w (l.RoundTrip env r w).2) ∧
      fresh ∉ closes (emitted w (l.RoundTrip env r w).2) ∧
      body.closed = 0 ∧
      ioutil.ReadAll body = (B, none, drained) ∧
      drained.Read = ([], some io.ReadError.EOF, drained) := by
  rw [ReadAll_eq] at hread
  simp only [Prod.mk.injEq] at hread
  obtain ⟨hB, hf, -⟩ := hread
  have hlt : b < (chosenTransport env l r w.heap w.outside).heap.bodies.length :=
    (List.getElem?_eq_some.mp hs).1
  have hpl : p < (chosenTransport env l r w.heap w.outside).heap.responses.length :=
    (List.getElem?_eq_some.mp hX).1
  rw [RoundTrip_success env l r w hmode p b X s herr hp hX hb hs hf]
  refine ⟨rfl, (chosenTransport env l r w.heap w.outside).heap.bodies.length,
    bytes.NewReader B, { chunks := [], failure := none, closed := 0 }, le_refl _, ?_, ?_, ?_,
    ?_, ?_, rfl, ReadAll_NewReader B, rfl⟩
  · simp [hpl]
  · intro q hq
    simp [List.getElem?_set, Ne.symm hq]
  · simp [hB, List.getElem?_append_right]
  · rw [emitted_append w _ _ rfl]
    simp [reads, realEvents, openingEvents]
    constructor
    · cases (env.GetCurlCommand r).2 <;> simp
    · exact Nat.ne_of_gt hlt
  · rw [emitted_append w _ _ rfl]
    simp [closes, realEvents, openingEvents]
    constructor
    · cases (env.GetCurlCommand r).2 <;> simp
    · exact Nat.ne_of_gt hlt

/-- C1 at the scenario of the spec: the transport answers `200 OK` with the body
`hello`; the call returns a nil error and the same response (status code 200),
whose new body reads as `hello` and then ends. -/
theorem RoundTrip_real_success_witness :
    okResponse.StatusCode = 200 ∧
    ioutil.ReadAll helloBody =
      (helloBytes, none, { chunks := [], failure := none, closed := 0 }) ∧
    ((realTripper (okTransport helloBody)).RoundTrip exampleEnv exampleRequest startWorld).1 =
      Outcome.returned (some 0) none ∧
    ∃ fresh body drained,
      ((okTransport helloBody) exampleRequest startWorld.heap startWorld.outside).heap.bodies.length
        ≤ fresh ∧
      ((realTripper (okTransport helloBody)).RoundTrip exampleEnv exampleRequest
        startWorld).2.heap.responses[0]? = some { okResponse with Body := some fresh } ∧
      (∀ q, q ≠ 0 → ((realTripper (okTransport helloBody)).RoundTrip exampleEnv exampleRequest
        startWorld).2.heap.responses[q]? =
        ((okTransport helloBody) exampleRequest startWorld.heap
          startWorld.outside).heap.responses[q]?) ∧
      ((realTripper (okTransport helloBody)).RoundTrip exampleEnv exampleRequest
        startWorld).2.heap.bodies[fresh]? = some body ∧
      fresh ∉ reads (emitted startWorld ((realTripper (okTransport helloBody)).RoundTrip
        exampleEnv exampleRequest startWorld).2) ∧
      fresh ∉ closes (emitted startWorld ((realTripper (okTransport helloBody)).RoundTrip
        exampleEnv exampleRequest startWorld).2) ∧
      body.closed = 0 ∧
      ioutil.ReadAll body = (helloBytes, none, drained) ∧
      drained.Read = ([], some io.ReadError.EOF, drained) :=
  ⟨rfl, rfl,
    RoundTrip_real_success exampleEnv (realTripper (okTransport helloBody)) exampleRequest
      startWorld 0 0 okResponse helloBody { chunks := [], failure := none, closed := 0 }
      helloBytes rfl rfl rfl rfl rfl rfl rfl⟩

/-- C2: in real mode, when the transport returns `(resp, err)` with a non-nil
`err`, whatever `resp` is (nil included), `RoundTrip` returns exactly that pair;
it reads and closes no stream and leaves the heap and the outside state as the
transport left them. -/
theorem RoundTrip_transport_failure {σ : Type} (env : Env σ) (l : LoggingRoundTripper σ)
    (r : http.Request) (w : World σ) (e : GoError)
    (hmode : l.LogOnly = false)
    (herr : (chosenTransport env l r w.heap w.outside).err = some e) :
    (l.RoundTrip env r w).1 =
      Outcome.returned (chosenTransport env l r w.heap w.outside).resp (some e) ∧
    (l.RoundTrip env r w).2.heap = (chosenTransport env l r w.heap w.outside).heap ∧
    (l.RoundTrip env r w).2.outside = (chosenTransport env l r w.heap w.outside).outside ∧
    reads (emitted w (l.RoundTrip env r w).2) = [] ∧
    closes (emitted w (l.RoundTrip env r w).2) = [] := by
  rw [RoundTrip_transportError env l r w hmode e herr]
  refine ⟨rfl, rfl, rfl, ?_, ?_⟩
  · rw [emitted_append w _ _ rfl]
    simp [reads, realEvents, openingEvents]
    cases (env.GetCurlCommand r).2 <;> simp
  · rw [emitted_append w _ _ rfl]
    simp [closes, realEvents, openingEvents]
    cases (env.GetCurlCommand r).2 <;> simp

/-- C2 at the scenario of the spec: the transport fails with `connection
refused`; the call returns a nil response and an error with that message. -/
theorem RoundTrip_transport_failure_witness :
    (GoError.mk "connection refused").Error = "connection refused" ∧
    ((realTripper (failingTransport "connection refused")).RoundTrip exampleEnv exampleRequest
      startWorld).1 = Outcome.returned none (some { Error := "connection refused" }) ∧
    ((realTripper (failingTransport "connection refused")).RoundTrip exampleEnv exampleRequest
      startWorld).2.heap = startWorld.heap ∧
    ((realTripper (failingTransport "connection refused")).RoundTrip exampleEnv exampleRequest
      startWorld).2.outside = 1 ∧
    reads (emitted startWorld ((realTripper (failingTransport "connection refused")).RoundTrip
      exampleEnv exampleRequest startWorld).2) = [] ∧
    closes (emitted startWorld ((realTripper (failingTransport "connection refused")).RoundTrip
      exampleEnv exampleRequest startWorld).2) = [] :=
  ⟨rfl,
    RoundTrip_transport_failure exampleEnv (realTripper (failingTransport "connection refused"))
      exampleRequest startWorld { Error := "connection refused" } rfl rfl⟩

/-- C3: in simulate mode (`LogOnly` true), for every request, every inner
transport (nil included) and every renderer outcome, `RoundTrip` does not invoke
the transport and leaves the outside state untouched, and returns a nil error
with a new response whose status is `200 OK`, status code 200, protocol
`HTTP/1.0` (1, 0), header an empty map, content length -1, trailer an empty map,
request the original request, and whose body is a present stream that yields no
bytes; over any number of such calls the transport is never invoked. -/
theorem RoundTrip_simulate {σ : Type} (env : Env σ) (l : LoggingRoundTripper σ)
    (r : http.Request) (w : World σ)
    (calls : List (LoggingRoundTripper σ × http.Request))
    (hmode : l.LogOnly = true) (hcalls : ∀ c ∈ calls, c.1.LogOnly = true) :
    invocations (emitted w (l.RoundTrip env r w).2) = [] ∧
    (l.RoundTrip env r w).2.outside = w.outside ∧
    (∃ p b X s, (l.RoundTrip env r w).1 = Outcome.returned (some p) none ∧
      (l.RoundTrip env r w).2.heap.responses[p]? = some X ∧
      X.Status = "200 OK" ∧ X.StatusCode = 200 ∧ X.Proto = "HTTP/1.0" ∧
      X.ProtoMajor = 1 ∧ X.ProtoMinor = 0 ∧ X.Header = some [] ∧
      X.ContentLength = -1 ∧ X.Trailer = some [] ∧ X.Request = some r ∧
      X.Body = some b ∧ (l.RoundTrip env r w).2.heap.bodies[b]? = some s ∧
      ioutil.ReadAll s = ([], none, s)) ∧
    invocations (emitted w (RoundTrips env calls w).2) = [] ∧
    (RoundTrips env calls w).2.outside = w.outside ∧
    (RoundTrips env calls w).1.length = calls.length ∧
    ∀ c ∈ (RoundTrips env calls w).1,
      invocations c.2 = [] ∧ ∃ p, c.1 = Outcome.returned (some p) none := by
  obtain ⟨⟨evs, htr, hevs⟩, hout, hlen, hall⟩ := RoundTrips_logOnly env calls w hcalls
  obtain ⟨⟨evs1, htr1, hevs1⟩, hout1, -, -⟩ :=
    RoundTrips_logOnly env [(l, r)] w (by simpa using hmode)
  simp only [RoundTrips] at htr1 hout1
  refine ⟨?_, hout1, ?_, ?_, hout, hlen, hall⟩
  · rw [emitted_append w _ _ htr1]
    exact hevs1
  · rw [RoundTrip_logOnly env l r w hmode]
    refine ⟨w.heap.responses.length, w.heap.bodies.length, dummyResp r w.heap.bodies.length,
      strings.NewReader [], rfl, by simp, rfl, rfl, rfl, rfl, rfl, rfl, rfl, rfl, rfl, rfl,
      by simp, rfl⟩
  · rw [emitted_append w _ _ htr]
    exact hevs

/-- C3 at a concrete scenario: three simulate-mode calls from start-up never
invoke the transport (its call counter stays 0) and each returns a nil error. -/
theorem RoundTrip_simulate_witness :
    invocations (emitted startWorld
      (pretendTripper.RoundTrip exampleEnv exampleRequest startWorld).2) = [] ∧
    (pretendTripper.RoundTrip exampleEnv exampleRequest startWorld).2.outside = 0 ∧
    (∃ p b X s, (pretendTripper.RoundTrip exampleEnv exampleRequest startWorld).1 =
        Outcome.returned (some p) none ∧
      (pretendTripper.RoundTrip exampleEnv exampleRequest startWorld).2.heap.responses[p]? =
        some X ∧
      X.Status = "200 OK" ∧ X.StatusCode = 200 ∧ X.Proto = "HTTP/1.0" ∧
      X.ProtoMajor = 1 ∧ X.ProtoMinor = 0 ∧ X.Header = some [] ∧
      X.ContentLength = -1 ∧ X.Trailer = some [] ∧ X.Request = some exampleRequest ∧
      X.Body = some b ∧
      (pretendTripper.RoundTrip exampleEnv exampleRequest startWorld).2.heap.bodies[b]? =
        some s ∧
      ioutil.ReadAll s = ([], none, s)) ∧
    invocations (emitted startWorld (RoundTrips exampleEnv
      [(pretendTripper, exampleRequest), (pretendTripper, exampleRequest),
       (pretendTripper, exampleRequest)] startWorld).2) = [] ∧
    (RoundTrips exampleEnv
      [(pretendTripper, exampleRequest), (pretendTripper, exampleRequest),
       (pretendTripper, exampleRequest)] startWorld).2.outside = 0 ∧
    (RoundTrips exampleEnv
      [(pretendTripper, exampleRequest), (pretendTripper, exampleRequest),
       (pretendTripper, exampleRequest)] startWorld).1.length = 3 ∧
    ∀ c ∈ (RoundTrips exampleEnv
      [(pretendTripper, exampleRequest), (pretendTripper, exampleRequest),
       (pretendTripper, exampleRequest)] startWorld).1,
      invocations c.2 = [] ∧ ∃ p, c.1 = Outcome.returned (some p) none :=
  RoundTrip_simulate exampleEnv pretendTripper exampleRequest startWorld
    [(pretendTripper, exampleRequest), (pretendTripper, exampleRequest),
     (pretendTripper, exampleRequest)] rfl (by simp [pretendTripper])

/-- C4: in real mode, when the transport returns the response `X` at address `p`
with a nil error and reading the body of `X` fails with the error `e`,
`RoundTrip` returns `(p, e)`: the error of the read together with the original
response reference; no response object is changed, so `X` keeps its `Body`; and
the call emits the `ERROR` line that carries its Correlation ID and the read
failure. -/
theorem RoundTrip_body_read_failure {σ : Type} (env : Env σ) (l : LoggingRoundTripper σ)
    (r : http.Request) (w : World σ) (p b : Addr) (X : http.Response)
    (s : io.ReadCloser) (e : GoError)
    (hmode : l.LogOnly = false)
    (herr : (chosenTransport env l r w.heap w.outside).err = none)
    (hp : (chosenTransport env l r w.heap w.outside).resp = some p)
    (hX : (chosenTransport env l r w.heap w.outside).heap.responses[p]? = some X)
    (hb : X.Body = some b)
    (hs : (chosenTransport env l r w.heap w.outside).heap.bodies[b]? = some s)
    (hread : (ioutil.ReadAll s).2.1 = some e) :
    (l.RoundTrip env r w).1 = Outcome.returned (some p) (some e) ∧
    (l.RoundTrip env r w).2.heap.responses =
      (chosenTransport env l r w.heap w.outside).heap.responses ∧
    (l.RoundTrip env r w).2.heap.responses[p]? = some X ∧
    (l.RoundTrip env r w).2.heap.bodies.length =
      (chosenTransport env l r w.heap w.outside).heap.bodies.length ∧
    allocatedIDs (emitted w (l.RoundTrip env r w).2) = [(w.requestIDCounter + 1) % 2 ^ 64] ∧
    logLineForm "ERROR" ((w.requestIDCounter + 1) % 2 ^ 64) ("reading body: " ++ e.Error)
      ∈ logLines (emitted w (l.RoundTrip env r w).2) := by
  rw [ReadAll_eq] at hread
  simp only at hread
  have hn : (w.requestIDCounter + 1) % 2 ^ 64 = nextID w := rfl
  rw [hn, RoundTrip_readError env l r w hmode p b X s e herr hp hX hb hs hread]
  refine ⟨rfl, rfl, hX, by simp, ?_, ?_⟩
  · rw [emitted_append w _ _ rfl]
    have h0 := allocatedIDs_openingEvents env r w
    simp only [allocatedIDs] at h0 ⊢
    simp [realEvents, List.filterMap_append, h0]
  · rw [emitted_append w _ _ rfl]
    have hline : logLineForm "ERROR" (nextID w) ("reading body: " ++ e.Error) =
        "loggingroundtripper|ERROR||req:" ++ toString (nextID w) ++ "|reading body: " ++ e.Error := by
      have h1 : "loggingroundtripper|ERROR||req:" = "loggingroundtripper|" ++ "ERROR" ++ "||req:" := by
        decide
      have h2 : "|reading body: " = "|" ++ "reading body: " := by decide
      rw [h1, h2]
      simp only [logLineForm, String.append_assoc]
    simp only [hline, logLines, List.filterMap_append]
    simp

/-- C4 at a concrete scenario: the transport answers `200 OK` with a body that
fails after two bytes. -/
theorem RoundTrip_body_read_failure_witness :
    ((realTripper (okTransport brokenBody)).RoundTrip exampleEnv exampleRequest startWorld).1 =
      Outcome.returned (some 0) (some { Error := "unexpected EOF" }) ∧
    ((realTripper (okTransport brokenBody)).RoundTrip exampleEnv exampleRequest
      startWorld).2.heap.responses =
      ((okTransport brokenBody) exampleRequest startWorld.heap startWorld.outside).heap.responses ∧
    ((realTripper (okTransport brokenBody)).RoundTrip exampleEnv exampleRequest
      startWorld).2.heap.responses[0]? = some okResponse ∧
    ((realTripper (okTransport brokenBody)).RoundTrip exampleEnv exampleRequest
      startWorld).2.heap.bodies.length =
      ((okTransport brokenBody) exampleRequest startWorld.heap
        startWorld.outside).heap.bodies.length ∧
    allocatedIDs (emitted startWorld ((realTripper (okTransport brokenBody)).RoundTrip exampleEnv
      exampleRequest startWorld).2) = [1] ∧
    logLineForm "ERROR" 1 ("reading body: " ++ (GoError.mk "unexpected EOF").Error)
      ∈ logLines (emitted startWorld ((realTripper (okTransport brokenBody)).RoundTrip exampleEnv
        exampleRequest startWorld).2) :=
  RoundTrip_body_read_failure exampleEnv (realTripper (okTransport brokenBody)) exampleRequest
    startWorld 0 0 okResponse brokenBody { Error := "unexpected EOF" } rfl rfl rfl rfl rfl rfl rfl

/-- C6, as the code has it: every call, in either mode and on every path,
performs one atomic add of one on the counter, modulo `2^64`, and uses the value
it returns as its Correlation ID (it is the identifier in every log line of the
call); when the call ends the counter holds that identifier plus the number of
`RoundTrip` calls its inner transport made on the same counter, modulo `2^64`
(none in simulate mode).  Hence for `N` successive calls from the counter value
`c` with `c + N < 2^64`, whose inner transports make no nested `RoundTrip` call,
the calls are assigned `c+1, c+2, ..., c+N` in order, and the counter ends at
`c + N`. -/
theorem requestID_allocation {σ : Type} (env : Env σ) (l : LoggingRoundTripper σ)
    (r : http.Request) (calls : List (LoggingRoundTripper σ × http.Request)) (w : World σ)
    (hbound : w.requestIDCounter + calls.length < 2 ^ 64)
    (hnested : ∀ c ∈ calls, c.1.LogOnly = false →
      ∀ h o, (chosenTransport env c.1 c.2 h o).nested = 0) :
    ((emitted w (l.RoundTrip env r w).2).head? =
        some (Event.atomicAdd ((w.requestIDCounter + 1) % 2 ^ 64)) ∧
      allocatedIDs (emitted w (l.RoundTrip env r w).2) = [(w.requestIDCounter + 1) % 2 ^ 64] ∧
      (∀ line ∈ logLines (emitted w (l.RoundTrip env r w).2),
        ∃ sev msg, (sev = "INFO" ∨ sev = "ERROR") ∧
          line = logLineForm sev ((w.requestIDCounter + 1) % 2 ^ 64) msg) ∧
      (l.RoundTrip env r w).2.requestIDCounter =
        ((w.requestIDCounter + 1) % 2 ^ 64 +
          (if l.LogOnly then 0 else (chosenTransport env l r w.heap w.outside).nested))
            % 2 ^ 64) ∧
    (RoundTrips env calls w).2.requestIDCounter = w.requestIDCounter + calls.length ∧
    (RoundTrips env calls w).1.map (fun c => allocatedIDs c.2) =
      (List.range' (w.requestIDCounter + 1) calls.length).map (fun i => [i]) ∧
    ∀ c ∈ List.zip (List.range' (w.requestIDCounter + 1) calls.length) (RoundTrips env calls w).1,
      c.2.2.head? = some (Event.atomicAdd c.1) ∧
      ∀ line ∈ logLines c.2.2, ∃ sev msg, (sev = "INFO" ∨ sev = "ERROR") ∧
        line = logLineForm sev c.1 msg := by
  obtain ⟨hc, hhead, hids, hlines⟩ := RoundTrip_ids env l r w
  exact ⟨⟨hhead, hids, hlines, hc⟩, RoundTrips_ids env calls w hbound hnested⟩

/-- C6 fails as stated, in two ways.  From the counter value `2^64 - 1` the next
call is assigned the identifier 0, not `c + 1`, and the counter goes back to 0.
And when the inner transport is itself an interceptor, one outer call advances
the counter by two: from start-up two successive outer calls are assigned 1 and
3, and the counter ends at 4. -/
theorem requestID_allocation_fails :
    fullWorld.requestIDCounter = 2 ^ 64 - 1 ∧
    (pretendTripper.RoundTrip exampleEnv exampleRequest fullWorld).2.requestIDCounter = 0 ∧
    allocatedIDs (emitted fullWorld
      (pretendTripper.RoundTrip exampleEnv exampleRequest fullWorld).2) = [0] ∧
    ¬ (allocatedIDs (emitted fullWorld
      (pretendTripper.RoundTrip exampleEnv exampleRequest fullWorld).2) =
        [fullWorld.requestIDCounter + 1]) ∧
    startWorld.requestIDCounter = 0 ∧
    ((realTripper nestedPretendTransport).RoundTrip exampleEnv exampleRequest
      startWorld).2.requestIDCounter = 2 ∧
    (RoundTrips exampleEnv
      [(realTripper nestedPretendTransport, exampleRequest),
       (realTripper nestedPretendTransport, exampleRequest)] startWorld).1.map
        (fun c => allocatedIDs c.2) = [[1], [3]] ∧
    (RoundTrips exampleEnv
      [(realTripper nestedPretendTransport, exampleRequest),
       (realTripper nestedPretendTransport, exampleRequest)] startWorld).2.requestIDCounter
        = 4 := by
  obtain ⟨hc, -, hids, -⟩ := RoundTrip_ids exampleEnv pretendTripper exampleRequest fullWorld
  have hn : nextID fullWorld = 0 := by decide
  rw [hn] at hc hids
  rw [hc, hids]
  refine ⟨by decide, rfl, rfl, by decide, rfl, rfl, rfl, rfl⟩

/-- C6 from start-up: three calls (simulate, real with a failing transport,
real with a good transport) are assigned 1, 2 and 3. -/
theorem requestID_allocation_witness :
    startWorld.requestIDCounter = 0 ∧
    (RoundTrips exampleEnv
      [(pretendTripper, exampleRequest),
       (realTripper (failingTransport "connection refused"), exampleRequest),
       (realTripper (okTransport helloBody), exampleRequest)] startWorld).2.requestIDCounter = 3 ∧
    (RoundTrips exampleEnv
      [(pretendTripper, exampleRequest),
       (realTripper (failingTransport "connection refused"), exampleRequest),
       (realTripper (okTransport helloBody), exampleRequest)] startWorld).1.map
        (fun c => allocatedIDs c.2) = [[1], [2], [3]] ∧
    ((realTripper nestedPretendTransport).RoundTrip exampleEnv exampleRequest
      startWorld).2.requestIDCounter = (1 + 1) % 2 ^ 64 := by
  have hn : ∀ c ∈ [(pretendTripper, exampleRequest),
      (realTripper (failingTransport "connection refused"), exampleRequest),
      (realTripper (okTransport helloBody), exampleRequest)],
      c.1.LogOnly = false → ∀ h o, (chosenTransport exampleEnv c.1 c.2 h o).nested = 0 := by
    intro c hc _ h o
    simp only [List.mem_cons, List.mem_singleton, List.not_mem_nil, or_false] at hc
    rcases hc with rfl | rfl | rfl <;> rfl
  exact ⟨rfl,
    (requestID_allocation exampleEnv pretendTripper exampleRequest
      [(pretendTripper, exampleRequest),
       (realTripper (failingTransport "connection refused"), exampleRequest),
       (realTripper (okTransport helloBody), exampleRequest)] startWorld (by decide) hn).2.1,
    (requestID_allocation exampleEnv pretendTripper exampleRequest
      [(pretendTripper, exampleRequest),
       (realTripper (failingTransport "connection refused"), exampleRequest),
       (realTripper (okTransport helloBody), exampleRequest)] startWorld (by decide) hn).2.2.1,
    (requestID_allocation exampleEnv (realTripper nestedPretendTransport) exampleRequest
      [] startWorld (by decide) (by simp)).1.2.2.2⟩

/-- C7: every log line a call emits is
`loggingroundtripper|SEVERITY||req:<id>|<message>` with `SEVERITY` one of `INFO`
and `ERROR` and `<id>` the decimal form of the one identifier the call allocated
at its start.  The lines of a call are, in order: the `ERROR` line for a renderer
failure (if the renderer failed), the `INFO` request line, and then the outcome
line: `ERROR` for a transport error or a body-read failure, `INFO` for the
response (none if the call panics). -/
theorem RoundTrip_log_tagging {σ : Type} (env : Env σ) (l : LoggingRoundTripper σ)
    (r : http.Request) (w : World σ) :
    ∃ id outcomeLines,
      (emitted w (l.RoundTrip env r w).2).head? = some (Event.atomicAdd id) ∧
      allocatedIDs (emitted w (l.RoundTrip env r w).2) = [id] ∧
      (∀ line ∈ logLines (emitted w (l.RoundTrip env r w).2),
        ∃ sev msg, (sev = "INFO" ∨ sev = "ERROR") ∧ line = logLineForm sev id msg) ∧
      logLines (emitted w (l.RoundTrip env r w).2) =
        (match (env.GetCurlCommand r).2 with
          | some e => [logLineForm "ERROR" id
              ("LoggingRoundTripper: converting request to curl: " ++ e.Error)]
          | none => []) ++
        logLineForm "INFO" id
          ((if l.LogOnly then "Pretend HTTP Request: " else "Real HTTP Request: ")
            ++ (env.GetCurlCommand r).1) :: outcomeLines ∧
      ((∃ resp e, (l.RoundTrip env r w).1 = Outcome.returned resp (some e) ∧
          (outcomeLines = [logLineForm "ERROR" id ("request: " ++ e.Error)] ∨
           outcomeLines = [logLineForm "ERROR" id ("reading body: " ++ e.Error)])) ∨
       (∃ resp details, (l.RoundTrip env r w).1 = Outcome.returned resp none ∧
          outcomeLines = [logLineForm "INFO" id
            ((if l.LogOnly then "Pretend HTTP Response: " else "Real HTTP Response: ")
              ++ details)]) ∨
       ((l.RoundTrip env r w).1 = Outcome.panicked ∧ outcomeLines = [])) := by
  obtain ⟨-, hhead, hids, hlines⟩ := RoundTrip_ids env l r w
  obtain ⟨-, -, tail, htr, htail⟩ := RoundTrip_trace env l r w
  have hrender : logLines (renderErrorLines env r (nextID w)) =
      (match (env.GetCurlCommand r).2 with
        | some e => [logLineForm "ERROR" (nextID w)
            ("LoggingRoundTripper: converting request to curl: " ++ e.Error)]
        | none => []) := by
    unfold renderErrorLines
    cases (env.GetCurlCommand r).2 <;> simp [logLines]
  have hsplit : logLines (emitted w (l.RoundTrip env r w).2) =
      logLines (renderErrorLines env r (nextID w)) ++ logLines tail := by
    rw [emitted_append w _ _ htr]
    simp [logLines, List.filterMap_append]
  rw [hsplit, hrender] at hlines ⊢
  generalize (l.RoundTrip env r w).1 = o at htail
  cases htail with
  | pretend p details hm =>
    refine ⟨nextID w, _, hhead, hids, hlines, ?_, Or.inr (Or.inl ⟨_, details, rfl, rfl⟩)⟩
    simp [logLines, hm]
  | transportError e hm he =>
    refine ⟨nextID w, _, hhead, hids, hlines, ?_, Or.inl ⟨_, e, rfl, Or.inl rfl⟩⟩
    simp [logLines, hm]
  | panic hm he =>
    refine ⟨nextID w, _, hhead, hids, hlines, ?_, Or.inr (Or.inr ⟨rfl, rfl⟩)⟩
    simp [logLines, hm]
  | readError p b e hm he hp =>
    refine ⟨nextID w, _, hhead, hids, hlines, ?_, Or.inl ⟨_, e, rfl, Or.inr rfl⟩⟩
    simp [logLines, hm]
  | success p b details hm he hp =>
    refine ⟨nextID w, _, hhead, hids, hlines, ?_, Or.inr (Or.inl ⟨_, details, rfl, rfl⟩)⟩
    simp [logLines, hm]

/-- C7 at a concrete scenario: a real-mode call from start-up whose transport
fails. -/
theorem RoundTrip_log_tagging_witness :
    ∃ id outcomeLines,
      (emitted startWorld ((realTripper (failingTransport "connection refused")).RoundTrip
        exampleEnv exampleRequest startWorld).2).head? = some (Event.atomicAdd id) ∧
      allocatedIDs (emitted startWorld ((realTripper (failingTransport
        "connection refused")).RoundTrip exampleEnv exampleRequest startWorld).2) = [id] ∧
      (∀ line ∈ logLines (emitted startWorld ((realTripper (failingTransport
          "connection refused")).RoundTrip exampleEnv exampleRequest startWorld).2),
        ∃ sev msg, (sev = "INFO" ∨ sev = "ERROR") ∧ line = logLineForm sev id msg) ∧
      logLines (emitted startWorld ((realTripper (failingTransport
          "connection refused")).RoundTrip exampleEnv exampleRequest startWorld).2) =
        (match (exampleEnv.GetCurlCommand exampleRequest).2 with
          | some e => [logLineForm "ERROR" id
              ("LoggingRoundTripper: converting request to curl: " ++ e.Error)]
          | none => []) ++
        logLineForm "INFO" id
          ((if (realTripper (failingTransport "connection refused")).LogOnly
              then "Pretend HTTP Request: " else "Real HTTP Request: ")
            ++ (exampleEnv.GetCurlCommand exampleRequest).1) :: outcomeLines ∧
      ((∃ resp e, ((realTripper (failingTransport "connection refused")).RoundTrip exampleEnv
            exampleRequest startWorld).1 = Outcome.returned resp (some e) ∧
          (outcomeLines = [logLineForm "ERROR" id ("request: " ++ e.Error)] ∨
           outcomeLines = [logLineForm "ERROR" id ("reading body: " ++ e.Error)])) ∨
       (∃ resp details, ((realTripper (failingTransport "connection refused")).RoundTrip
            exampleEnv exampleRequest startWorld).1 = Outcome.returned resp none ∧
          outcomeLines = [logLineForm "INFO" id
            ((if (realTripper (failingTransport "connection refused")).LogOnly
                then "Pretend HTTP Response: " else "Real HTTP Response: ")
              ++ details)]) ∨
       (((realTripper (failingTransport "connection refused")).RoundTrip exampleEnv
            exampleRequest startWorld).1 = Outcome.panicked ∧ outcomeLines = [])) :=
  RoundTrip_log_tagging exampleEnv (realTripper (failingTransport "connection refused"))
    exampleRequest startWorld

/-- C8, as the code has it: in every real-mode call the events of the call
start, in order, with: the atomic add and the possible renderer-failure line;
the `Real HTTP Request` line; the invocation of the transport with the original
request; the completion of that invocation with the pair the transport
returned.  The transport is invoked exactly once (the outside state is the one
that invocation left), and the call itself emits nothing between the request
line and the invocation or between the invocation and its completion.  After
the completion there is no further invocation or completion.  If the call
returns, exactly one log line follows the completion, the outcome line: the
transport-error line when the transport returned an error, else the
body-read-error line or the `Real HTTP Response` line.  If the call panics (the
transport returned a nil error with a nil response or a nil body), nothing
follows the completion. -/
theorem RoundTrip_real_ordering {σ : Type} (env : Env σ) (l : LoggingRoundTripper σ)
    (r : http.Request) (w : World σ) (hmode : l.LogOnly = false) :
    ∃ post,
      emitted w (l.RoundTrip env r w).2 =
        Event.atomicAdd (nextID w) :: renderErrorLines env r (nextID w) ++
          [Event.log (logLineForm "INFO" (nextID w)
              ("Real HTTP Request: " ++ (env.GetCurlCommand r).1)),
           Event.invoke r,
           Event.returned (chosenTransport env l r w.heap w.outside).resp
             (chosenTransport env l r w.heap w.outside).err] ++ post ∧
      (l.RoundTrip env r w).2.outside = (chosenTransport env l r w.heap w.outside).outside ∧
      invocations (emitted w (l.RoundTrip env r w).2) = [r] ∧
      invocations post = [] ∧
      (∀ a b, Event.returned a b ∉ post) ∧
      (∀ resp err, (l.RoundTrip env r w).1 = Outcome.returned resp err →
        resp = (chosenTransport env l r w.heap w.outside).resp ∧
        ∃ outcomeLine, logLines post = [outcomeLine] ∧
          ((∃ e, (chosenTransport env l r w.heap w.outside).err = some e ∧ err = some e ∧
              outcomeLine = logLineForm "ERROR" (nextID w) ("request: " ++ e.Error)) ∨
           (∃ e, (chosenTransport env l r w.heap w.outside).err = none ∧ err = some e ∧
              outcomeLine = logLineForm "ERROR" (nextID w) ("reading body: " ++ e.Error)) ∨
           (∃ details, (chosenTransport env l r w.heap w.outside).err = none ∧ err = none ∧
              outcomeLine =
                logLineForm "INFO" (nextID w) ("Real HTTP Response: " ++ details)))) ∧
      ((l.RoundTrip env r w).1 = Outcome.panicked →
        post = [] ∧ (chosenTransport env l r w.heap w.outside).err = none) := by
  obtain ⟨-, hout, tail, htr, htail⟩ := RoundTrip_trace env l r w
  obtain ⟨-, hinv, -⟩ := renderErrorLines_obs env r (nextID w)
  have hinvs : ∀ mid : List Event, invocations mid = [r] →
      invocations (Event.atomicAdd (nextID w) :: renderErrorLines env r (nextID w) ++ mid)
        = [r] := by
    intro mid hmid
    simp only [invocations] at hinv hmid ⊢
    simp [List.filterMap_append, hinv, hmid]
  simp only [hmode, Bool.false_eq_true, ↓reduceIte] at hout
  rw [emitted_append w _ _ htr]
  generalize (l.RoundTrip env r w).1 = o at htail ⊢
  cases htail with
  | pretend p details hm => simp [hmode] at hm
  | transportError e hm he =>
    refine ⟨[Event.log (logLineForm "ERROR" (nextID w) ("request: " ++ e.Error))],
      by simp, hout, ?_, by simp [invocations], by simp, ?_, ?_⟩
    · refine hinvs _ ?_
      simp [invocations]
    · intro resp err h
      simp only [Outcome.returned.injEq] at h
      obtain ⟨rfl, rfl⟩ := h
      exact ⟨rfl, _, by simp [logLines], Or.inl ⟨e, he, rfl, rfl⟩⟩
    · intro h
      cases h
  | panic hm he =>
    refine ⟨[], by simp, hout, ?_, by simp [invocations], by simp, ?_, ?_⟩
    · refine hinvs _ ?_
      simp [invocations]
    · intro resp err h
      cases h
    · intro _
      exact ⟨rfl, he⟩
  | readError p b e hm he hp =>
    refine ⟨[Event.readAll b, Event.log (logLineForm "ERROR" (nextID w)
      ("reading body: " ++ e.Error)), Event.close b], by simp, hout, ?_,
      by simp [invocations], by simp, ?_, ?_⟩
    · refine hinvs _ ?_
      simp [invocations]
    · intro resp err h
      simp only [Outcome.returned.injEq] at h
      obtain ⟨rfl, rfl⟩ := h
      exact ⟨hp.symm, _, by simp [logLines], Or.inr (Or.inl ⟨e, he, rfl, rfl⟩)⟩
    · intro h
      cases h
  | success p b details hm he hp =>
    refine ⟨[Event.readAll b, Event.log (logLineForm "INFO" (nextID w)
      ("Real HTTP Response: " ++ details)), Event.close b], by simp, hout, ?_,
      by simp [invocations], by simp, ?_, ?_⟩
    · refine hinvs _ ?_
      simp [invocations]
    · intro resp err h
      simp only [Outcome.returned.injEq] at h
      obtain ⟨rfl, rfl⟩ := h
      exact ⟨hp.symm, _, by simp [logLines], Or.inr (Or.inr ⟨details, he, rfl, rfl⟩)⟩
    · intro h
      cases h

/-- C8 fails as stated: when the transport returns a nil response with a nil
error, the real-mode call logs the request line, invokes the transport once,
and then panics at `defer resp.Body.Close()`: the completion of the transport
call is its last event and no outcome line is emitted. -/
theorem RoundTrip_real_ordering_fails :
    (realTripper nilTransport).LogOnly = false ∧
    ((realTripper nilTransport).RoundTrip exampleEnv exampleRequest startWorld).1 =
      Outcome.panicked ∧
    emitted startWorld
        ((realTripper nilTransport).RoundTrip exampleEnv exampleRequest startWorld).2 =
      [Event.atomicAdd 1,
       Event.log (logLineForm "INFO" 1 ("Real HTTP Request: " ++ "curl -X GET http://example.com/")),
       Event.invoke exampleRequest,
       Event.returned none none] ∧
    logLines (emitted startWorld
        ((realTripper nilTransport).RoundTrip exampleEnv exampleRequest startWorld).2) =
      [logLineForm "INFO" 1 ("Real HTTP Request: " ++ "curl -X GET http://example.com/")] := by
  decide

/-- C8 at the scenario of the spec: the transport answers `200 OK` with the body
`hello`; the call returns `(0, nil)`, the transport ran once (its call counter
is 1), and after its completion the one log line is the `Real HTTP Response`
line. -/
theorem RoundTrip_real_ordering_witness :
    ((realTripper (okTransport helloBody)).RoundTrip exampleEnv exampleRequest startWorld).1 =
      Outcome.returned (some 0) none ∧
    ((realTripper (okTransport helloBody)).RoundTrip exampleEnv exampleRequest
      startWorld).2.outside = 1 ∧
    ∃ post outcomeLine details,
      emitted startWorld ((realTripper (okTransport helloBody)).RoundTrip exampleEnv
          exampleRequest startWorld).2 =
        Event.atomicAdd 1 :: renderErrorLines exampleEnv exampleRequest 1 ++
          [Event.log (logLineForm "INFO" 1
              ("Real HTTP Request: " ++ (exampleEnv.GetCurlCommand exampleRequest).1)),
           Event.invoke exampleRequest,
           Event.returned (some 0) none] ++ post ∧
      invocations (emitted startWorld ((realTripper (okTransport helloBody)).RoundTrip exampleEnv
          exampleRequest startWorld).2) = [exampleRequest] ∧
      invocations post = [] ∧
      (∀ a b, Event.returned a b ∉ post) ∧
      logLines post = [outcomeLine] ∧
      outcomeLine = logLineForm "INFO" 1 ("Real HTTP Response: " ++ details) := by
  obtain ⟨post, h1, -, h3, h4, h5, h6, -⟩ :=
    RoundTrip_real_ordering exampleEnv (realTripper (okTransport helloBody)) exampleRequest
      startWorld rfl
  obtain ⟨-, line, h7, h8⟩ := h6 (some 0) none rfl
  rcases h8 with ⟨e, -, he, -⟩ | ⟨e, -, he, -⟩ | ⟨details, -, -, h9⟩
  · cases he
  · cases he
  · exact ⟨rfl, rfl, post, line, details, h1, h3, h4, h5, h7, h9⟩

/-- C9: in real mode, when the transport returns an error, `Close` is never
called; when it returns the response `X` with a nil error, the stream `b` that
the transport put in `X` is the one stream `Close` is called on, exactly once,
whether reading it succeeded or failed, and its count of `Close` calls goes up
by one; if reading succeeded, `X` now refers to another stream, which is
unclosed and holds all the bytes unread. -/
theorem RoundTrip_body_closed {σ : Type} (env : Env σ) (l : LoggingRoundTripper σ)
    (r : http.Request) (w : World σ) (hmode : l.LogOnly = false) :
    (∀ e, (chosenTransport env l r w.heap w.outside).err = some e →
      closes (emitted w (l.RoundTrip env r w).2) = []) ∧
    (∀ p b X s,
      (chosenTransport env l r w.heap w.outside).err = none →
      (chosenTransport env l r w.heap w.outside).resp = some p →
      (chosenTransport env l r w.heap w.outside).heap.responses[p]? = some X →
      X.Body = some b →
      (chosenTransport env l r w.heap w.outside).heap.bodies[b]? = some s →
      closes (emitted w (l.RoundTrip env r w).2) = [b] ∧
      (∃ s1, (l.RoundTrip env r w).2.heap.bodies[b]? = some s1 ∧ s1.closed = s.closed + 1) ∧
      ((ioutil.ReadAll s).2.1 = none →
        ∃ fresh body, fresh ≠ b ∧
          (l.RoundTrip env r w).2.heap.responses[p]? = some { X with Body := some fresh } ∧
          (l.RoundTrip env r w).2.heap.bodies[fresh]? = some body ∧
          body.closed = 0 ∧
          ioutil.ReadAll body =
            ((ioutil.ReadAll s).1, none, { chunks := [], failure := none, closed := 0 }))) := by
  refine ⟨?_, ?_⟩
  · intro e he
    rw [RoundTrip_transportError env l r w hmode e he, emitted_append w _ _ rfl]
    have h0 := closes_realEvents env l r w
    simp only [closes] at h0 ⊢
    simp [List.filterMap_append, h0]
  · intro p b X s he hp hX hb hs
    have hlt : b < (chosenTransport env l r w.heap w.outside).heap.bodies.length :=
      (List.getElem?_eq_some.mp hs).1
    have hpl : p < (chosenTransport env l r w.heap w.outside).heap.responses.length :=
      (List.getElem?_eq_some.mp hX).1
    have h0 := closes_realEvents env l r w
    simp only [closes] at h0
    cases hf : s.failure with
    | some e =>
      rw [RoundTrip_readError env l r w hmode p b X s e he hp hX hb hs hf,
        emitted_append w _ _ rfl]
      refine ⟨?_, ⟨{ chunks := [], failure := s.failure, closed := s.closed + 1 },
        by simp [hlt], rfl⟩, ?_⟩
      · simp only [closes]
        simp [List.filterMap_append, h0]
      · intro hnone
        rw [ReadAll_eq] at hnone
        simp [hf] at hnone
    | none =>
      rw [RoundTrip_success env l r w hmode p b X s he hp hX hb hs hf,
        emitted_append w _ _ rfl]
      refine ⟨?_, ⟨{ chunks := [], failure := none, closed := s.closed + 1 },
        by simp [hlt, List.getElem?_append_left], rfl⟩, ?_⟩
      · simp only [closes]
        simp [List.filterMap_append, h0]
      · intro _
        refine ⟨(chosenTransport env l r w.heap w.outside).heap.bodies.length,
          bytes.NewReader s.chunks.flatten, Nat.ne_of_gt hlt, by simp [hpl],
          by simp [List.getElem?_append_right], rfl, ?_⟩
        rw [ReadAll_NewReader, ReadAll_eq]

/-- C9 at concrete scenarios: a failing transport (no `Close`), a body that
reads as `hello`, and a body that fails while being read. -/
theorem RoundTrip_body_closed_witness :
    closes (emitted startWorld ((realTripper (failingTransport "connection refused")).RoundTrip
      exampleEnv exampleRequest startWorld).2) = [] ∧
    closes (emitted startWorld ((realTripper (okTransport helloBody)).RoundTrip
      exampleEnv exampleRequest startWorld).2) = [0] ∧
    (∃ fresh body, fresh ≠ 0 ∧
      ((realTripper (okTransport helloBody)).RoundTrip exampleEnv exampleRequest
        startWorld).2.heap.responses[0]? = some { okResponse with Body := some fresh } ∧
      ((realTripper (okTransport helloBody)).RoundTrip exampleEnv exampleRequest
        startWorld).2.heap.bodies[fresh]? = some body ∧
      body.closed = 0 ∧
      ioutil.ReadAll body =
        ((ioutil.ReadAll helloBody).1, none, { chunks := [], failure := none, closed := 0 })) ∧
    closes (emitted startWorld ((realTripper (okTransport brokenBody)).RoundTrip
      exampleEnv exampleRequest startWorld).2) = [0] :=
  ⟨(RoundTrip_body_closed exampleEnv (realTripper (failingTransport "connection refused"))
      exampleRequest startWorld rfl).1 { Error := "connection refused" } rfl,
    ((RoundTrip_body_closed exampleEnv (realTripper (okTransport helloBody))
      exampleRequest startWorld rfl).2 0 0 okResponse helloBody rfl rfl rfl rfl rfl).1,
    ((RoundTrip_body_closed exampleEnv (realTripper (okTransport helloBody))
      exampleRequest startWorld rfl).2 0 0 okResponse helloBody rfl rfl rfl rfl rfl).2.2 rfl,
    ((RoundTrip_body_closed exampleEnv (realTripper (okTransport brokenBody))
      exampleRequest startWorld rfl).2 0 0 okResponse brokenBody rfl rfl rfl rfl rfl).1⟩

/-- C5: replace the renderer of a run by any other one (so one may fail where
the other succeeds).  Both runs end the same way: the same outcome
`(response, error)` or panic, the same heap, outside state, counter and clock.
Their events are the same except for the renderer-failure line, present exactly
in a run whose renderer failed and carrying the call's Correlation ID and the
failure, and for the text of the command in the request line; in particular the
transport is invoked the same number of times with the same request: never in
simulate mode, once with the original request in real mode.  In real mode the
run with the replaced renderer (which may always fail) still applies the
transport: the events after the request line start with the invocation and its
completion with the pair the transport returned, the outside state is the one
the transport left, a transport error is returned with the transport's response
and heap unchanged, and otherwise the call returns the transport's response
reference (or panics on a nil one). -/
theorem RoundTrip_render_fail_open {σ : Type} (env : Env σ)
    (g : http.Request → String × Option GoError) (l : LoggingRoundTripper σ)
    (r : http.Request) (w : World σ) :
    ∃ id post,
      (l.RoundTrip env r w).1 = (l.RoundTrip { env with GetCurlCommand := g } r w).1 ∧
      (l.RoundTrip env r w).2.heap = (l.RoundTrip { env with GetCurlCommand := g } r w).2.heap ∧
      (l.RoundTrip env r w).2.outside =
        (l.RoundTrip { env with GetCurlCommand := g } r w).2.outside ∧
      (l.RoundTrip env r w).2.requestIDCounter =
        (l.RoundTrip { env with GetCurlCommand := g } r w).2.requestIDCounter ∧
      (l.RoundTrip env r w).2.clock = (l.RoundTrip { env with GetCurlCommand := g } r w).2.clock ∧
      emitted w (l.RoundTrip env r w).2 =
        Event.atomicAdd id ::
          (match (env.GetCurlCommand r).2 with
            | some e => [Event.log (logLineForm "ERROR" id
                ("LoggingRoundTripper: converting request to curl: " ++ e.Error))]
            | none => []) ++
          Event.log (logLineForm "INFO" id
            ((if l.LogOnly then "Pretend HTTP Request: " else "Real HTTP Request: ")
              ++ (env.GetCurlCommand r).1)) :: post ∧
      emitted w (l.RoundTrip { env with GetCurlCommand := g } r w).2 =
        Event.atomicAdd id ::
          (match (g r).2 with
            | some e => [Event.log (logLineForm "ERROR" id
                ("LoggingRoundTripper: converting request to curl: " ++ e.Error))]
            | none => []) ++
          Event.log (logLineForm "INFO" id
            ((if l.LogOnly then "Pretend HTTP Request: " else "Real HTTP Request: ")
              ++ (g r).1)) :: post ∧
      invocations post = (if l.LogOnly then [] else [r]) ∧
      invocations (emitted w (l.RoundTrip env r w).2) = (if l.LogOnly then [] else [r]) ∧
      invocations (emitted w (l.RoundTrip { env with GetCurlCommand := g } r w).2) =
        (if l.LogOnly then [] else [r]) ∧
      (l.LogOnly = false →
        (∃ rest, post = Event.invoke r ::
            Event.returned (chosenTransport env l r w.heap w.outside).resp
              (chosenTransport env l r w.heap w.outside).err :: rest) ∧
        (l.RoundTrip { env with GetCurlCommand := g } r w).2.outside =
          (chosenTransport env l r w.heap w.outside).outside ∧
        (∀ e, (chosenTransport env l r w.heap w.outside).err = some e →
          (l.RoundTrip { env with GetCurlCommand := g } r w).1 =
            Outcome.returned (chosenTransport env l r w.heap w.outside).resp (some e) ∧
          (l.RoundTrip { env with GetCurlCommand := g } r w).2.heap =
            (chosenTransport env l r w.heap w.outside).heap) ∧
        ((chosenTransport env l r w.heap w.outside).err = none →
          (l.RoundTrip { env with GetCurlCommand := g } r w).1 = Outcome.panicked ∨
          ∃ err1, (l.RoundTrip { env with GetCurlCommand := g } r w).1 =
            Outcome.returned (chosenTransport env l r w.heap w.outside).resp err1)) := by
  have hinv : ∀ (env1 : Env σ) (mid : List Event),
      invocations (Event.atomicAdd (nextID w) :: renderErrorLines env1 r (nextID w) ++ mid)
        = invocations mid := by
    intro env1 mid
    obtain ⟨-, h0, -⟩ := renderErrorLines_obs env1 r (nextID w)
    simp only [invocations] at h0 ⊢
    simp [List.filterMap_append, h0]
  have key : ∃ post,
      (l.RoundTrip env r w).1 = (l.RoundTrip { env with GetCurlCommand := g } r w).1 ∧
      (l.RoundTrip env r w).2.heap = (l.RoundTrip { env with GetCurlCommand := g } r w).2.heap ∧
      (l.RoundTrip env r w).2.outside =
        (l.RoundTrip { env with GetCurlCommand := g } r w).2.outside ∧
      (l.RoundTrip env r w).2.requestIDCounter =
        (l.RoundTrip { env with GetCurlCommand := g } r w).2.requestIDCounter ∧
      (l.RoundTrip env r w).2.clock = (l.RoundTrip { env with GetCurlCommand := g } r w).2.clock ∧
      emitted w (l.RoundTrip env r w).2 =
        Event.atomicAdd (nextID w) :: renderErrorLines env r (nextID w) ++
          Event.log (logLineForm "INFO" (nextID w)
            ((if l.LogOnly then "Pretend HTTP Request: " else "Real HTTP Request: ")
              ++ (env.GetCurlCommand r).1)) :: post ∧
      emitted w (l.RoundTrip { env with GetCurlCommand := g } r w).2 =
        Event.atomicAdd (nextID w) ::
          renderErrorLines { env with GetCurlCommand := g } r (nextID w) ++
          Event.log (logLineForm "INFO" (nextID w)
            ((if l.LogOnly then "Pretend HTTP Request: " else "Real HTTP Request: ")
              ++ (g r).1)) :: post ∧
      invocations post = (if l.LogOnly then [] else [r]) := by
    cases hm : l.LogOnly with
    | true =>
      rw [RoundTrip_logOnly env l r w hm,
        RoundTrip_logOnly { env with GetCurlCommand := g } l r w hm,
        emitted_append w _ _ rfl, emitted_append w _ _ rfl]
      refine ⟨[Event.log ("loggingroundtripper|INFO||req:" ++ toString (nextID w)
            ++ "|Pretend HTTP Response: URL:" ++ r.URL.String
            ++ ", StatusCode:" ++ toString (200 : Int)
            ++ ", Header:" ++ env.fmtHeader (some [])
            ++ ", Body:" ++ "")], rfl, rfl, rfl, rfl, rfl, ?_, ?_, ?_⟩
      · simp only [openingEvents_eq, pretendRequestLine_eq, ↓reduceIte, List.cons_append,
          List.append_assoc, List.nil_append]
      · simp only [openingEvents_eq, pretendRequestLine_eq, ↓reduceIte, List.cons_append,
          List.append_assoc, List.nil_append]
      · simp [invocations]
    | false =>
      have hm2 : l.LogOnly = false := hm
      cases he : (chosenTransport env l r w.heap w.outside).err with
      | some e =>
        rw [RoundTrip_transportError env l r w hm e he,
          RoundTrip_transportError { env with GetCurlCommand := g } l r w hm e he,
          emitted_append w _ _ rfl, emitted_append w _ _ rfl]
        refine ⟨[Event.invoke r,
          Event.returned (chosenTransport env l r w.heap w.outside).resp (some e),
          Event.log ("loggingroundtripper|ERROR||req:" ++ toString (nextID w)
              ++ "|request: " ++ e.Error)], rfl, rfl, rfl, rfl, rfl, ?_, ?_, ?_⟩
        · simp only [realEvents, he, openingEvents_eq, realRequestLine_eq, Bool.false_eq_true,
            ↓reduceIte, List.cons_append, List.append_assoc, List.nil_append]
        · have he2 : (chosenTransport { env with GetCurlCommand := g } l r w.heap w.outside).err
              = some e := he
          simp only [realEvents, he2, openingEvents_eq, realRequestLine_eq, Bool.false_eq_true,
            ↓reduceIte, List.cons_append, List.append_assoc, List.nil_append]
          rfl
        · simp [invocations]
      | none =>
        have he2 : (chosenTransport { env with GetCurlCommand := g } l r w.heap w.outside).err
            = none := he
        cases hd : derefBody (chosenTransport env l r w.heap w.outside).heap
            (chosenTransport env l r w.heap w.outside).resp with
        | none =>
          rw [RoundTrip_panic env l r w hm he hd,
            RoundTrip_panic { env with GetCurlCommand := g } l r w hm he hd,
            emitted_append w _ _ rfl, emitted_append w _ _ rfl]
          refine ⟨[Event.invoke r,
            Event.returned (chosenTransport env l r w.heap w.outside).resp none],
            rfl, rfl, rfl, rfl, rfl, ?_, ?_, ?_⟩
          · simp only [realEvents, he, openingEvents_eq, realRequestLine_eq, Bool.false_eq_true,
              ↓reduceIte, List.cons_append, List.append_assoc, List.nil_append]
          · simp only [realEvents, he2, openingEvents_eq, realRequestLine_eq,
              Bool.false_eq_true, ↓reduceIte, List.cons_append, List.append_assoc,
              List.nil_append]
            rfl
          · simp [invocations]
        | some q =>
          obtain ⟨p, X, b, s⟩ := q
          obtain ⟨hp, hX, hb, hs⟩ := derefBody_some hd
          have hp2 : (chosenTransport { env with GetCurlCommand := g } l r w.heap w.outside).resp
              = some p := hp
          cases hf : s.failure with
          | some e =>
            rw [RoundTrip_readError env l r w hm p b X s e he hp hX hb hs hf,
              RoundTrip_readError { env with GetCurlCommand := g } l r w hm p b X s e he hp hX
                hb hs hf,
              emitted_append w _ _ rfl, emitted_append w _ _ rfl]
            refine ⟨[Event.invoke r, Event.returned (some p) none, Event.readAll b,
              Event.log ("loggingroundtripper|ERROR||req:" ++ toString (nextID w)
                ++ "|reading body: " ++ e.Error),
              Event.close b], rfl, rfl, rfl, rfl, rfl, ?_, ?_, ?_⟩
            · simp only [realEvents, he, hp, openingEvents_eq, realRequestLine_eq,
                Bool.false_eq_true, ↓reduceIte, List.cons_append, List.append_assoc,
                List.nil_append]
            · simp only [realEvents, he2, hp2, openingEvents_eq, realRequestLine_eq,
                Bool.false_eq_true, ↓reduceIte, List.cons_append, List.append_assoc,
                List.nil_append]
            · simp [invocations]
          | none =>
            rw [RoundTrip_success env l r w hm p b X s he hp hX hb hs hf,
              RoundTrip_success { env with GetCurlCommand := g } l r w hm p b X s he hp hX
                hb hs hf,
              emitted_append w _ _ rfl, emitted_append w _ _ rfl]
            refine ⟨[Event.invoke r, Event.returned (some p) none, Event.readAll b,
              Event.log ("loggingroundtripper|INFO||req:" ++ toString (nextID w)
                ++ "|Real HTTP Response: Duration:"
                ++ env.fmtDuration (w.clock.tail.headD 0 - w.clock.headD 0)
                ++ ", URL:" ++ r.URL.String
                ++ ", StatusCode:" ++ toString X.StatusCode
                ++ ", Header:" ++ env.fmtHeader X.Header
                ++ ", Body:" ++ env.fmtBody s.chunks.flatten),
              Event.close b], rfl, rfl, rfl, rfl, rfl, ?_, ?_, ?_⟩
            · simp only [realEvents, he, hp, openingEvents_eq, realRequestLine_eq,
                Bool.false_eq_true, ↓reduceIte, List.cons_append, List.append_assoc,
                List.nil_append]
            · simp only [realEvents, he2, hp2, openingEvents_eq, realRequestLine_eq,
                Bool.false_eq_true, ↓reduceIte, List.cons_append, List.append_assoc,
                List.nil_append]
            · simp [invocations]
  obtain ⟨post, h1, h2, h3, h4, h5, h6, h7, h8⟩ := key
  refine ⟨nextID w, post, h1, h2, h3, h4, h5, h6, h7, h8, ?_, ?_, ?_⟩
  · rw [h6, hinv]
    simp only [invocations] at h8 ⊢
    simpa using h8
  · rw [h7, hinv]
    simp only [invocations] at h8 ⊢
    simpa using h8
  · intro hm
    obtain ⟨-, hout, tail, htr, htail⟩ := RoundTrip_trace env l r w
    simp only [hm, Bool.false_eq_true, ↓reduceIte] at hout
    have hE : tail = Event.log (logLineForm "INFO" (nextID w)
        ((if l.LogOnly then "Pretend HTTP Request: " else "Real HTTP Request: ")
          ++ (env.GetCurlCommand r).1)) :: post := by
      have h9 := emitted_append w _ _ htr
      rw [h6] at h9
      simp only [List.cons_append, List.cons.injEq, true_and] at h9
      exact (List.append_cancel_left h9).symm
    rw [← h1, ← h2, ← h3]
    refine ⟨?_, hout, ?_, ?_⟩
    · generalize (l.RoundTrip env r w).1 = o at htail
      cases htail with
      | pretend p details hm1 => simp [hm] at hm1
      | transportError e hm1 he =>
        obtain ⟨-, rfl⟩ := List.cons.inj hE
        exact ⟨_, rfl⟩
      | panic hm1 he =>
        obtain ⟨-, rfl⟩ := List.cons.inj hE
        exact ⟨_, rfl⟩
      | readError p b e hm1 he hp =>
        obtain ⟨-, rfl⟩ := List.cons.inj hE
        exact ⟨_, rfl⟩
      | success p b details hm1 he hp =>
        obtain ⟨-, rfl⟩ := List.cons.inj hE
        exact ⟨_, rfl⟩
    · intro e he
      rw [RoundTrip_transportError env l r w hm e he]
      exact ⟨rfl, rfl⟩
    · intro he
      generalize (l.RoundTrip env r w).1 = o at htail
      cases htail with
      | pretend p details hm1 => simp [hm] at hm1
      | transportError e hm1 he1 => simp [he] at he1
      | panic hm1 he1 => exact Or.inl rfl
      | readError p b e hm1 he1 hp => exact Or.inr ⟨some e, by rw [hp]⟩
      | success p b details hm1 he1 hp => exact Or.inr ⟨none, by rw [hp]⟩

/-- C5 at concrete scenarios, with a renderer that always fails: a real-mode
call whose transport answers `200 OK` with the body `hello` returns the
transport's response as with a renderer that succeeds, after invoking the
transport once (its call counter is 1); a real-mode call whose transport fails
returns the transport's error. -/
theorem RoundTrip_render_fail_open_witness :
    ((realTripper (okTransport helloBody)).RoundTrip exampleEnv exampleRequest startWorld).1 =
      ((realTripper (okTransport helloBody)).RoundTrip
        { exampleEnv with GetCurlCommand := failingRender } exampleRequest startWorld).1 ∧
    ((realTripper (okTransport helloBody)).RoundTrip
        { exampleEnv with GetCurlCommand := failingRender } exampleRequest startWorld).1 =
      Outcome.returned (some 0) none ∧
    invocations (emitted startWorld ((realTripper (okTransport helloBody)).RoundTrip
      { exampleEnv with GetCurlCommand := failingRender } exampleRequest startWorld).2) =
      [exampleRequest] ∧
    ((realTripper (okTransport helloBody)).RoundTrip
        { exampleEnv with GetCurlCommand := failingRender } exampleRequest
        startWorld).2.outside = 1 ∧
    ((realTripper (failingTransport "connection refused")).RoundTrip
        { exampleEnv with GetCurlCommand := failingRender } exampleRequest startWorld).1 =
      Outcome.returned none (some { Error := "connection refused" }) := by
  obtain ⟨id, post, h1, -, -, -, -, -, -, -, -, h2, h3⟩ :=
    RoundTrip_render_fail_open exampleEnv failingRender (realTripper (okTransport helloBody))
      exampleRequest startWorld
  obtain ⟨id2, post2, -, -, -, -, -, -, -, -, -, -, h4⟩ :=
    RoundTrip_render_fail_open exampleEnv failingRender
      (realTripper (failingTransport "connection refused")) exampleRequest startWorld
  exact ⟨h1, rfl, h2, (h3 rfl).2.1, ((h4 rfl).2.2.1 { Error := "connection refused" } rfl).1⟩

end Loggingroundtripper
